import Mathlib

/-!
# Verification of the terminal interaction controller of `server.ts`

This file shallowly embeds the TUI state machine of the repository's
`src/server.ts` (views, session state, key dispatch, list filtering,
multi-step forms, confirmation gate, store operations, transient-screen
timers) and proves properties of the embedding.

Modelling conventions:
* JavaScript values that flow through `tuiState.formData` and the store rows
  are modelled by `FV` (`undef` for `undefined`, `str`, `num`).
* JS numbers are modelled by exact decimals `JsNum` (a canonical
  `mant / 10 ^ fexp`).  The TUI only ever parses numbers from buffers,
  tests them for truthiness and prints them back — it performs no numeric
  arithmetic — so this is observationally faithful for the decimal literals
  the forms handle (exponent notation, `Infinity` and `NaN`-producing paths
  other than parse failure are outside the modelled fragment).
* JS objects used as records (`formData`, DB rows) are modelled as total
  functions `String → FV`, absent properties being `FV.undef`.
* Raw key events are the exact strings the `data` handler receives.
* `setTimeout` callbacks are modelled as explicit state transformers
  (`fireMessageTimer`, `fireStatsTimer`); the list `Sys.timers` records the
  scheduled, never-cancelled callbacks in scheduling order.
* Rendering is modelled by `Sys.lastPaint` recording which screen the last
  draw call painted (draw parameters that are pure presentation are dropped,
  except the Message screen's text and error flag, which the claims observe).
-/

/-- Canonicalise `n / 10 ^ e` by dividing out trailing factors of ten. -/
def decCanon : ℤ → ℕ → ℤ × ℕ
  | n, 0 => (n, 0)
  | n, e + 1 => if n % 10 = 0 then decCanon (n / 10) e else (n, e + 1)

/-- A JS number in the decimal fragment the forms exercise: the value
`mant / 10 ^ fexp`, kept canonical (built through `mkJsNum`). -/
structure JsNum where
  mant : ℤ
  fexp : ℕ
deriving DecidableEq, Repr

/-- Build the canonical `JsNum` denoting `n / 10 ^ e`. -/
def mkJsNum (n : ℤ) (e : ℕ) : JsNum :=
  let p := decCanon n e
  ⟨p.1, p.2⟩

/-- A JavaScript value as stored in `formData` / DB rows: `undefined`,
a string, or a number. -/
inductive FV where
  | undef : FV
  | str (s : String) : FV
  | num (j : JsNum) : FV
deriving DecidableEq, Repr

/-- JS truthiness test restricted to the values we model:
`undefined`, `''` and `0` are falsy. -/
def falsy : FV → Bool
  | FV.undef => true
  | FV.str s => s = ""
  | FV.num j => j.mant = 0

/-- JS `a || b` on modelled values. -/
def jsOr (a b : FV) : FV := if falsy a then b else a

/-- JS `v || d` where the fallback is a string literal (used for
`record.CustomerName || 'Bu müşteriyi'`-style defaults). -/
def jsOrString (v : FV) (d : String) : FV := if falsy v then FV.str d else v

/-- Numeric value of a list of decimal digit characters. -/
def digitsVal (ds : List Char) : ℕ :=
  ds.foldl (fun a c => a * 10 + (c.toNat - '0'.toNat)) 0

/-- Model of JS `parseFloat`: skip leading whitespace, optional sign, then
the longest prefix of the form `digits [ '.' digits ]` with at least one
digit; `none` models `NaN`. -/
def jsParseFloat (s : String) : Option JsNum :=
  let cs := s.data.dropWhile (fun c => c == ' ' || c == '\t' || c == '\n' || c == '\r')
  let sgn : ℤ := match cs with
    | '-' :: _ => -1
    | _ => 1
  let cs1 := match cs with
    | '-' :: t => t
    | '+' :: t => t
    | t => t
  let d1 := cs1.takeWhile Char.isDigit
  let rest := cs1.drop d1.length
  let d2 := match rest with
    | '.' :: t => t.takeWhile Char.isDigit
    | _ => []
  if d1.isEmpty ∧ d2.isEmpty then none
  else some (mkJsNum (sgn * ((digitsVal d1 : ℤ) * (10 : ℤ) ^ d2.length + (digitsVal d2 : ℤ))) d2.length)

/-- Model of JS `String(n)` for a number in the positional-notation range:
decimal digits with a point when the exponent is positive. -/
def numToString (j : JsNum) : String :=
  let sgn := if j.mant < 0 then "-" else ""
  let ds := Nat.repr j.mant.natAbs
  if j.fexp = 0 then sgn ++ ds
  else
    let ds := if ds.length ≤ j.fexp then
        String.mk (List.replicate (j.fexp + 1 - ds.length) '0') ++ ds
      else ds
    sgn ++ ds.take (ds.length - j.fexp) ++ "." ++ ds.drop (ds.length - j.fexp)

/-- JS `String(v)` on modelled values. -/
def fvToString : FV → String
  | FV.undef => "undefined"
  | FV.str s => s
  | FV.num j => numToString j

/-- JS `String(v || '')`, the idiom the TUI uses to seed `inputBuffer`
from a `formData` slot. -/
def stringifyOr (v : FV) : String := if falsy v then "" else fvToString v

/-- `startsWithChars p h`: `p` is a prefix of the character list `h`. -/
def startsWithChars : List Char → List Char → Bool
  | [], _ => true
  | _ :: _, [] => false
  | a :: ps, b :: hs => a == b && startsWithChars ps hs

/-- `listContains p h`: the character list `p` occurs contiguously in `h`
(the semantics of JS `String.prototype.includes`). -/
def listContains (p : List Char) : List Char → Bool
  | [] => p.isEmpty
  | b :: hs => startsWithChars p (b :: hs) || listContains p hs

/-- JS `hay.includes(pat)`. -/
def containsSubstr (hay pat : String) : Bool := listContains pat.data hay.data

/-- JS `s.toLowerCase()` (character-wise lowering over the underlying
character list). -/
def jsToLower (s : String) : String := String.mk (s.data.map Char.toLower)

/-! ## Views, session state and static form definitions -/

/-- The `currentView` values of `TuiState`. -/
inductive View where
  | main | customerList | productList | customerForm | productForm | confirmAction
deriving DecidableEq, Repr

/-- The pending `confirmAction` of the confirmation modal. -/
inductive CAction where
  | save | delete
deriving DecidableEq, Repr

/-- The two kinds of auto-return `setTimeout` callbacks the TUI schedules. -/
inductive TimerKind where
  | messageReturn | statsReturn
deriving DecidableEq, Repr

/-- Which screen the last draw call painted.  Presentation-only parameters
are dropped; the Message screen keeps its text and error flag. -/
inductive Paint where
  | mainMenu | listView | form | confirmBox | stats
  | message (text : String) (isError : Bool)
deriving DecidableEq, Repr

/-- A JS object: total map from property names to values
(`FV.undef` = absent). -/
abbrev Row := String → FV

/-- The empty object `{}`. -/
def emptyData : Row := fun _ => FV.undef

/-- One entry of `customerFormSteps` / `productFormSteps`
(the `label` is render-only and omitted). -/
structure FormStep where
  field : String
  required : Bool
  isNumber : Bool
deriving DecidableEq, Repr

/-- `customerFormSteps` from `server.ts`. -/
def customerFormSteps : List FormStep := [
  ⟨"CustomerName", true, false⟩,
  ⟨"CustomerPhone", false, false⟩,
  ⟨"CustomerAddress", false, false⟩,
  ⟨"CustomerTCKN", false, false⟩,
  ⟨"CustomerVD", false, false⟩,
  ⟨"CustomerDebt", false, true⟩,
  ⟨"CustomerBalance", false, true⟩]

/-- `productFormSteps` from `server.ts`. -/
def productFormSteps : List FormStep := [
  ⟨"ProductCode", true, false⟩,
  ⟨"Details", false, false⟩,
  ⟨"Barcode", false, false⟩,
  ⟨"Price", true, true⟩,
  ⟨"Category", false, false⟩,
  ⟨"ActualInventory", false, true⟩,
  ⟨"ReservedInventory", false, true⟩,
  ⟨"AwaitingInventory", false, true⟩]

/-- `steps[i].field`, defaulting to `""` out of range (the TUI maintains
`formStep` in range, so the default is never exercised). -/
def fieldAt (steps : List FormStep) (i : ℕ) : String :=
  match steps.get? i with
  | some st => st.field
  | none => ""

/-- The mutable `tuiState` object. -/
structure Tui where
  currentView : View
  selectedIndex : ℕ
  searchFilter : String
  isSearching : Bool
  formData : Row
  formStep : ℕ
  editingId : Option FV
  inputBuffer : String
  confirmIndex : ℕ
  previousView : Option View
  confirmAction : Option CAction
  confirmMessage : Option String

/-- The whole modelled world: the `tuiState`, the two SQLite tables the TUI
touches, a counter producing fresh `crypto.randomUUID()` ids, the scheduled
timer callbacks, the last painted screen, and whether `process.exit` ran. -/
structure Sys where
  tui : Tui
  customers : List Row
  products : List Row
  nextId : ℕ
  timers : List TimerKind
  lastPaint : Paint
  exited : Bool

/-- JS truthiness of an optional value (e.g. `tuiState.editingId`). -/
def truthyB (o : Option FV) : Bool :=
  match o with
  | some v => !(falsy v)
  | none => false

/-- `currentView.endsWith('-form')`. -/
def isFormView (v : View) : Prop := v = View.customerForm ∨ v = View.productForm

instance (v : View) : Decidable (isFormView v) := by
  unfold isFormView; infer_instance

/-- `currentView.endsWith('-list')`. -/
def isListView (v : View) : Prop := v = View.customerList ∨ v = View.productList

instance (v : View) : Decidable (isListView v) := by
  unfold isListView; infer_instance

/-- `key.length === 1 && key >= ' '`. -/
def isPrintable (key : String) : Bool :=
  match key.data with
  | [c] => ' ' ≤ c
  | _ => false

/-- JS `s.slice(0, -1)`. -/
def dropLastChar (s : String) : String := String.mk s.data.dropLast

/-! ## FilterEngine -/

/-- `filterRecords(records, searchTerm, isCustomer)` from `server.ts`:
empty term returns the records; otherwise keep the records one of whose
fixed per-entity fields contains the lowercased term, case-insensitively. -/
def filterRecords (records : List Row) (searchTerm : String) (isCustomer : Bool) : List Row :=
  if searchTerm = "" then records
  else
    let term := jsToLower searchTerm
    records.filter (fun record =>
      if isCustomer then
        containsSubstr (jsToLower (stringifyOr (record "CustomerName"))) term ||
        containsSubstr (jsToLower (stringifyOr (record "CustomerPhone"))) term ||
        containsSubstr (jsToLower (stringifyOr (record "CustomerTCKN"))) term
      else
        containsSubstr (jsToLower (stringifyOr (record "ProductCode"))) term ||
        containsSubstr (jsToLower (stringifyOr (record "Details"))) term ||
        containsSubstr (jsToLower (stringifyOr (record "Barcode"))) term)

/-- The per-entity field subsets named by the specification's filter
predicate. -/
def specFilterFields (isCustomer : Bool) : List String :=
  if isCustomer then ["CustomerName", "CustomerPhone", "CustomerTCKN"]
  else ["ProductCode", "Details", "Barcode"]

/-- Spec-side filter predicate, following the specification's words: a record
matches when at least one of the entity's fixed field subset contains the
filter text as a case-insensitive substring. -/
def specMatches (isCustomer : Bool) (term : String) (r : Row) : Bool :=
  (specFilterFields isCustomer).any
    (fun f => containsSubstr (jsToLower (stringifyOr (r f))) (jsToLower term))

/-! ## Store operations (the slice the TUI exercises) -/

/-- `r.id === idv` for a DB `WHERE id = ?` comparison. -/
def rowIdIs (idv : FV) (r : Row) : Bool := r "id" == idv

/-- The customer columns written by `customerOps.create`'s INSERT
(the three JSON-array columns are irrelevant to every claim and modelled
as absent). -/
def customerColumns : List String :=
  ["CustomerName", "CustomerPhone", "CustomerAddress", "CustomerTCKN",
   "CustomerVD", "CustomerDebt", "CustomerBalance"]

/-- The product columns written by `productOps.create`'s INSERT. -/
def productColumns : List String :=
  ["ProductCode", "Details", "Barcode", "Price", "Category",
   "ActualInventory", "ReservedInventory", "AwaitingInventory"]

/-- The row stored by `customerOps.create` for field values `data` under a
fresh `id`. -/
def customerRowOf (idv : FV) (data : Row) : Row := fun f =>
  if f = "id" then idv
  else if f ∈ customerColumns then data f
  else FV.undef

/-- The row stored by `productOps.create`. -/
def productRowOf (idv : FV) (data : Row) : Row := fun f =>
  if f = "id" then idv
  else if f ∈ productColumns then data f
  else FV.undef

/-- `customerOps.update`'s column assignment `updates.X || current.X`,
applied to one stored row. -/
def applyCustomerUpdate (u : Row) (cur : Row) : Row := fun f =>
  if f = "CustomerName" then jsOr (u "CustomerName") (cur "CustomerName")
  else if f = "CustomerPhone" then jsOr (u "CustomerPhone") (cur "CustomerPhone")
  else if f = "CustomerAddress" then jsOr (u "CustomerAddress") (cur "CustomerAddress")
  else if f = "CustomerTCKN" then jsOr (u "CustomerTCKN") (cur "CustomerTCKN")
  else if f = "CustomerVD" then jsOr (u "CustomerVD") (cur "CustomerVD")
  else if f = "CustomerDebt" then jsOr (u "CustomerDebt") (cur "CustomerDebt")
  else if f = "CustomerBalance" then jsOr (u "CustomerBalance") (cur "CustomerBalance")
  else cur f

/-- `productOps.update`'s column assignment `updates.X || current.X`. -/
def applyProductUpdate (u : Row) (cur : Row) : Row := fun f =>
  if f = "ProductCode" then jsOr (u "ProductCode") (cur "ProductCode")
  else if f = "Details" then jsOr (u "Details") (cur "Details")
  else if f = "Barcode" then jsOr (u "Barcode") (cur "Barcode")
  else if f = "Price" then jsOr (u "Price") (cur "Price")
  else if f = "Category" then jsOr (u "Category") (cur "Category")
  else if f = "ActualInventory" then jsOr (u "ActualInventory") (cur "ActualInventory")
  else if f = "ReservedInventory" then jsOr (u "ReservedInventory") (cur "ReservedInventory")
  else if f = "AwaitingInventory" then jsOr (u "AwaitingInventory") (cur "AwaitingInventory")
  else cur f

/-- `customerOps.update(id, u)` on the customers table: `getById` first; a
missing row returns the table unchanged (the source returns `null` and runs
no UPDATE); otherwise the matching row is rewritten. -/
def customerUpdateStore (cs : List Row) (idv : FV) (u : Row) : List Row :=
  match cs.find? (rowIdIs idv) with
  | none => cs
  | some _ => cs.map (fun r => if rowIdIs idv r then applyCustomerUpdate u r else r)

/-- `productOps.update(id, u)` on the products table (not-found leaves it
unchanged). -/
def productUpdateStore (ps : List Row) (idv : FV) (u : Row) : List Row :=
  match ps.find? (rowIdIs idv) with
  | none => ps
  | some _ => ps.map (fun r => if rowIdIs idv r then applyProductUpdate u r else r)

/-- The UNIQUE(ProductCode) violation `productOps.update` can raise: the new
code equals another row's code. -/
def productUpdateThrows (ps : List Row) (idv : FV) (u : Row) : Bool :=
  match ps.find? (rowIdIs idv) with
  | none => false
  | some cur =>
    ps.any (fun r => !(rowIdIs idv r) && (r "ProductCode" == jsOr (u "ProductCode") (cur "ProductCode")))

/-- NOT NULL (`CustomerName`) violation of `customerOps.create`: binding
`undefined` stores NULL, which the schema rejects. -/
def customerCreateThrows (data : Row) : Bool := data "CustomerName" == FV.undef

/-- NOT NULL (`ProductCode`, `Price`) or UNIQUE(`ProductCode`) violation of
`productOps.create`. -/
def productCreateThrows (ps : List Row) (data : Row) : Bool :=
  data "ProductCode" == FV.undef || data "Price" == FV.undef ||
  ps.any (fun r => r "ProductCode" == data "ProductCode")

/-! ## FormController: commit-on-navigate -/

/-- The field-commit block repeated verbatim in `moveToNextField`,
`moveToPrevField` and `executeFormSave`:
`type === 'number' && buffer` parses the buffer (`parseFloat(b) || 0` — both
`NaN` and the falsy `0` yield `0`); otherwise `buffer || ''` commits the raw
string. -/
def commitVal (isNumber : Bool) (buf : String) : FV :=
  if isNumber = true ∧ buf ≠ "" then FV.num ((jsParseFloat buf).getD ⟨0, 0⟩)
  else FV.str buf

/-- The step list the form handlers select from `currentView`
(`currentView === 'customer-form' ? customerFormSteps : productFormSteps`). -/
def stepsOfView (v : View) : List FormStep :=
  if v = View.customerForm then customerFormSteps else productFormSteps

/-- `tuiState.formData[f] = v` (mutation of the current object). -/
def setField (fd : Row) (f : String) (v : FV) : Row :=
  fun g => if g = f then v else fd g

/-- `moveToNextField()`: commit the current field, then advance `formStep`
if not at the last step, reseeding `inputBuffer` from the (just updated)
`formData`.  An out-of-range `formStep` (never reached: the handlers keep it
in range) is modelled as a no-op where the source would raise. -/
def moveToNextField (s : Sys) : Sys :=
  let steps := stepsOfView s.tui.currentView
  match steps.get? s.tui.formStep with
  | none => s
  | some cur =>
    let fd := setField s.tui.formData cur.field (commitVal cur.isNumber s.tui.inputBuffer)
    if s.tui.formStep < steps.length - 1 then
      let ns := s.tui.formStep + 1
      { s with tui := { s.tui with
                        formData := fd, formStep := ns,
                        inputBuffer := stringifyOr (fd (fieldAt steps ns)) } }
    else { s with tui := { s.tui with formData := fd } }

/-- `moveToPrevField()`: commit, then retreat if not at step 0. -/
def moveToPrevField (s : Sys) : Sys :=
  let steps := stepsOfView s.tui.currentView
  match steps.get? s.tui.formStep with
  | none => s
  | some cur =>
    let fd := setField s.tui.formData cur.field (commitVal cur.isNumber s.tui.inputBuffer)
    if 0 < s.tui.formStep then
      let ns := s.tui.formStep - 1
      { s with tui := { s.tui with
                        formData := fd, formStep := ns,
                        inputBuffer := stringifyOr (fd (fieldAt steps ns)) } }
    else { s with tui := { s.tui with formData := fd } }

/-! ## Transient screens and timers -/

/-- `showMessage(message, isError)`: paint the Message screen and schedule
its auto-return callback; the session state itself is untouched until the
callback fires. -/
def showMessage (msg : String) (isError : Bool) (s : Sys) : Sys :=
  { s with lastPaint := Paint.message msg isError,
           timers := s.timers ++ [TimerKind.messageReturn] }

/-- `showStats()`: paint the stats screen and schedule its auto-return
callback (`currentView` is not changed by `showStats` itself). -/
def showStats (s : Sys) : Sys :=
  { s with lastPaint := Paint.stats, timers := s.timers ++ [TimerKind.statsReturn] }

/-- The body of `showMessage`'s `setTimeout` callback: at fire time it
branches on `previousView === 'customer-form'` and force-resets the session
to the corresponding list view. -/
def fireMessageTimer (s : Sys) : Sys :=
  if s.tui.previousView = some View.customerForm then
    { s with tui := { s.tui with
                      currentView := View.customerList, selectedIndex := 0,
                      isSearching := false, searchFilter := "", inputBuffer := "",
                      editingId := none, formData := emptyData },
             lastPaint := Paint.listView }
  else
    { s with tui := { s.tui with
                      currentView := View.productList, selectedIndex := 0,
                      isSearching := false, searchFilter := "", inputBuffer := "",
                      editingId := none, formData := emptyData },
             lastPaint := Paint.listView }

/-- The body of `showStats`'s `setTimeout` callback. -/
def fireStatsTimer (s : Sys) : Sys :=
  { s with tui := { s.tui with currentView := View.main, selectedIndex := 0 },
           lastPaint := Paint.mainMenu }

/-! ## ConfirmationGate actions -/

/-- `executeFormSave()`: commit the current field, then create or update
(keyed on `editingId` truthiness) against the table selected by
`previousView`; exceptions from the store land in the catch branch's error
Message, everything else (including a not-found update) in the success
Message. -/
def executeFormSave (s : Sys) : Sys :=
  let steps := if s.tui.previousView = some View.customerForm
    then customerFormSteps else productFormSteps
  match steps.get? s.tui.formStep with
  | none => showMessage "❌ Hata: adım tanımsız" true s
  | some cur =>
    let s1 := { s with tui := { s.tui with
      formData := setField s.tui.formData cur.field (commitVal cur.isNumber s.tui.inputBuffer) } }
    if s1.tui.previousView = some View.customerForm then
      if truthyB s1.tui.editingId then
        let cs := customerUpdateStore s1.customers (s1.tui.editingId.getD FV.undef) s1.tui.formData
        showMessage "✅ Müşteri başarıyla güncellendi" false { s1 with customers := cs }
      else
        if customerCreateThrows s1.tui.formData then
          showMessage "❌ Hata: NOT NULL constraint failed: customers.CustomerName" true s1
        else
          let idv := FV.str ("uuid-" ++ Nat.repr s1.nextId)
          showMessage "✅ Müşteri başarıyla oluşturuldu" false
            { s1 with customers := s1.customers ++ [customerRowOf idv s1.tui.formData],
                      nextId := s1.nextId + 1 }
    else if s1.tui.previousView = some View.productForm then
      if truthyB s1.tui.editingId then
        if productUpdateThrows s1.products (s1.tui.editingId.getD FV.undef) s1.tui.formData then
          showMessage "❌ Hata: UNIQUE constraint failed: products.ProductCode" true s1
        else
          let ps := productUpdateStore s1.products (s1.tui.editingId.getD FV.undef) s1.tui.formData
          showMessage "✅ Ürün başarıyla güncellendi" false { s1 with products := ps }
      else
        if productCreateThrows s1.products s1.tui.formData then
          showMessage "❌ Hata: products constraint failed" true s1
        else
          let idv := FV.str ("uuid-" ++ Nat.repr s1.nextId)
          showMessage "✅ Ürün başarıyla oluşturuldu" false
            { s1 with products := s1.products ++ [productRowOf idv s1.tui.formData],
                      nextId := s1.nextId + 1 }
    else s1

/-- `executeFormDelete()`: `DELETE FROM ... WHERE id = ?` (a vanished id
matches no row; the boolean result is ignored), then the success Message.
(Foreign keys are not enabled by the source's schema setup, so the delete
never raises.) -/
def executeFormDelete (s : Sys) : Sys :=
  if s.tui.previousView = some View.customerForm then
    let cs := match s.tui.editingId with
      | some idv => s.customers.filter (fun r => !(rowIdIs idv r))
      | none => s.customers
    showMessage "✅ Müşteri başarıyla silindi" false { s with customers := cs }
  else if s.tui.previousView = some View.productForm then
    let ps := match s.tui.editingId with
      | some idv => s.products.filter (fun r => !(rowIdIs idv r))
      | none => s.products
    showMessage "✅ Ürün başarıyla silindi" false { s with products := ps }
  else s

/-- `returnToForm()`: back to the form named by `previousView`, reseeding
`inputBuffer` from `formData` at the current step. -/
def returnToForm (s : Sys) : Sys :=
  if s.tui.previousView = some View.customerForm then
    { s with tui := { s.tui with
                      currentView := View.customerForm,
                      inputBuffer := stringifyOr (s.tui.formData (fieldAt customerFormSteps s.tui.formStep)) },
             lastPaint := Paint.form }
  else if s.tui.previousView = some View.productForm then
    { s with tui := { s.tui with
                      currentView := View.productForm,
                      inputBuffer := stringifyOr (s.tui.formData (fieldAt productFormSteps s.tui.formStep)) },
             lastPaint := Paint.form }
  else s

/-- `handleConfirmation(key)`: Left/Right set `confirmIndex`; Enter executes
the pending action when the index is 1 and otherwise cancels back to the
form. -/
def handleConfirmation (key : String) (s : Sys) : Sys :=
  if key = "\x1b[D" then
    { s with tui := { s.tui with confirmIndex := 0 }, lastPaint := Paint.confirmBox }
  else if key = "\x1b[C" then
    { s with tui := { s.tui with confirmIndex := 1 }, lastPaint := Paint.confirmBox }
  else if key = "\r" ∨ key = "\n" then
    if s.tui.confirmIndex = 1 then
      match s.tui.confirmAction with
      | some CAction.save => executeFormSave s
      | some CAction.delete => executeFormDelete s
      | none => s
    else returnToForm s
  else s

/-! ## View handlers -/

/-- `handleFormView(key)`: arrows/Tab/Enter navigate fields (committing on
the way), Backspace and printable characters edit `inputBuffer`.  (The
source's lazy re-initialisation of an `undefined` buffer cannot arise in the
model, where `inputBuffer` is always a string.) -/
def handleFormView (key : String) (s : Sys) : Sys :=
  if key = "\x1b[A" then { moveToPrevField s with lastPaint := Paint.form }
  else if key = "\x1b[B" then { moveToNextField s with lastPaint := Paint.form }
  else if key = "\t" ∨ key = "\r" ∨ key = "\n" then
    { moveToNextField s with lastPaint := Paint.form }
  else if key = "\x7f" ∨ key = "\x08" then
    if s.tui.inputBuffer ≠ "" then
      { s with tui := { s.tui with inputBuffer := dropLastChar s.tui.inputBuffer },
               lastPaint := Paint.form }
    else s
  else if isPrintable key then
    { s with tui := { s.tui with inputBuffer := s.tui.inputBuffer ++ key },
             lastPaint := Paint.form }
  else s

/-- Open the form in edit mode on the record selected in a list view
(the tail of `handleListView`'s Enter branch). -/
def openEditForm (isCustomer : Bool) (r : Row) (s : Sys) : Sys :=
  if isCustomer then
    { s with tui := { s.tui with
                      editingId := some (r "id"), formData := r, formStep := 0,
                      currentView := View.customerForm,
                      inputBuffer := stringifyOr (r (fieldAt customerFormSteps 0)) },
             lastPaint := Paint.form }
  else
    { s with tui := { s.tui with
                      editingId := some (r "id"), formData := r, formStep := 0,
                      currentView := View.productForm,
                      inputBuffer := stringifyOr (r (fieldAt productFormSteps 0)) },
             lastPaint := Paint.form }

/-- `handleListView(key)`: live-search editing when `isSearching`, otherwise
clamped cursor movement, Enter-to-edit, and any printable key entering
search mode.  (An out-of-range `selectedIndex` on Enter — never reached
under the cursor invariant — is modelled as a no-op where the source would
raise.) -/
def handleListView (key : String) (s : Sys) : Sys :=
  let isCustomer := s.tui.currentView = View.customerList
  let records := if isCustomer then s.customers else s.products
  let filtered := filterRecords records s.tui.searchFilter isCustomer
  if s.tui.isSearching then
    if key = "\r" ∨ key = "\n" then
      { s with tui := { s.tui with
                        isSearching := false, searchFilter := s.tui.inputBuffer,
                        selectedIndex := 0, inputBuffer := "" },
               lastPaint := Paint.listView }
    else if key = "\x7f" ∨ key = "\x08" then
      if s.tui.inputBuffer ≠ "" then
        let b := dropLastChar s.tui.inputBuffer
        { s with tui := { s.tui with
                          inputBuffer := b, searchFilter := b, selectedIndex := 0 },
                 lastPaint := Paint.listView }
      else s
    else if isPrintable key then
      let b := s.tui.inputBuffer ++ key
      { s with tui := { s.tui with
                        inputBuffer := b, searchFilter := b, selectedIndex := 0 },
               lastPaint := Paint.listView }
    else s
  else
    if key = "\x1b[A" ∧ 0 < filtered.length then
      { s with tui := { s.tui with selectedIndex := s.tui.selectedIndex - 1 },
               lastPaint := Paint.listView }
    else if key = "\x1b[B" ∧ 0 < filtered.length then
      { s with tui := { s.tui with
                        selectedIndex := min (filtered.length - 1) (s.tui.selectedIndex + 1) },
               lastPaint := Paint.listView }
    else if key = "\r" ∨ key = "\n" then
      if 0 < filtered.length then
        match filtered.get? s.tui.selectedIndex with
        | some r => openEditForm isCustomer r s
        | none => s
      else s
    else if isPrintable key then
      { s with tui := { s.tui with
                        isSearching := true, inputBuffer := key, searchFilter := key,
                        selectedIndex := 0 },
               lastPaint := Paint.listView }
    else s

/-- Enter the customer list from the main menu (also the target of the
corresponding Escape transitions). -/
def enterCustomerList (s : Sys) : Sys :=
  { s with tui := { s.tui with
                    currentView := View.customerList, selectedIndex := 0,
                    searchFilter := "", isSearching := false, inputBuffer := "",
                    editingId := none, formData := emptyData },
           lastPaint := Paint.listView }

/-- Enter the product list from the main menu. -/
def enterProductList (s : Sys) : Sys :=
  { s with tui := { s.tui with
                    currentView := View.productList, selectedIndex := 0,
                    searchFilter := "", isSearching := false, inputBuffer := "",
                    editingId := none, formData := emptyData },
           lastPaint := Paint.listView }

/-- `handleMainMenu(key)`: cursor clamped to the four fixed entries; Enter
dispatches on `selectedIndex`. -/
def handleMainMenu (key : String) (s : Sys) : Sys :=
  if key = "\x1b[A" then
    { s with tui := { s.tui with selectedIndex := s.tui.selectedIndex - 1 },
             lastPaint := Paint.mainMenu }
  else if key = "\x1b[B" then
    { s with tui := { s.tui with selectedIndex := min 3 (s.tui.selectedIndex + 1) },
             lastPaint := Paint.mainMenu }
  else if key = "\r" ∨ key = "\n" then
    match s.tui.selectedIndex with
    | 0 => enterCustomerList s
    | 1 => enterProductList s
    | 2 => showStats s
    | 3 => { s with exited := true }
    | _ => s
  else s

/-- The ESC branch of `handleKeyPress`. -/
def handleEscape (s : Sys) : Sys :=
  if s.tui.currentView = View.main then { s with exited := true }
  else if isFormView s.tui.currentView then
    if s.tui.currentView = View.customerForm then enterCustomerList s
    else enterProductList s
  else if s.tui.currentView = View.confirmAction then
    if s.tui.previousView = some View.customerForm then
      { s with tui := { s.tui with
                        currentView := View.customerForm,
                        inputBuffer := stringifyOr (s.tui.formData (fieldAt customerFormSteps s.tui.formStep)) },
               lastPaint := Paint.form }
    else if s.tui.previousView = some View.productForm then
      { s with tui := { s.tui with
                        currentView := View.productForm,
                        inputBuffer := stringifyOr (s.tui.formData (fieldAt productFormSteps s.tui.formStep)) },
               lastPaint := Paint.form }
    else s
  else if isListView s.tui.currentView then
    if s.tui.isSearching then
      { s with tui := { s.tui with
                        isSearching := false, inputBuffer := "", searchFilter := "",
                        selectedIndex := 0 },
               lastPaint := Paint.listView }
    else
      { s with tui := { s.tui with
                        currentView := View.main, selectedIndex := 0,
                        inputBuffer := "", searchFilter := "",
                        editingId := none, formData := emptyData },
               lastPaint := Paint.mainMenu }
  else
    { s with tui := { s.tui with currentView := View.main, selectedIndex := 0 },
             lastPaint := Paint.mainMenu }

/-- The final `switch (tuiState.currentView)` of `handleKeyPress`. -/
def viewDispatch (key : String) (s : Sys) : Sys :=
  match s.tui.currentView with
  | View.main => handleMainMenu key s
  | View.customerList => handleListView key s
  | View.productList => handleListView key s
  | View.customerForm => handleFormView key s
  | View.productForm => handleFormView key s
  | View.confirmAction => handleConfirmation key s

/-- `handleKeyPress(data)`: global shortcuts first — note that a global
shortcut whose view guard fails falls through to the view dispatch, exactly
as in the source, where the inner `if` guards the `return`. -/
def handleKeyPress (key : String) (s : Sys) : Sys :=
  if key = "\x03" then { s with exited := true }
  else if key = "\x13" ∧ isFormView s.tui.currentView then
    let recordName := if s.tui.currentView = View.customerForm
      then jsOrString (s.tui.formData "CustomerName") "Bu müşteriyi"
      else jsOrString (s.tui.formData "ProductCode") "Bu ürünü"
    let action := if truthyB s.tui.editingId then "güncelleme" else "kaydetme"
    { s with tui := { s.tui with
                      previousView := some s.tui.currentView,
                      currentView := View.confirmAction,
                      confirmAction := some CAction.save,
                      confirmMessage := some (fvToString recordName ++ " " ++ action ++ " işlemini onaylıyor musunuz?"),
                      confirmIndex := 1 },
             lastPaint := Paint.confirmBox }
  else if key = "\x04" ∧ isFormView s.tui.currentView ∧ truthyB s.tui.editingId = true then
    let recordName := if s.tui.currentView = View.customerForm
      then jsOrString (s.tui.formData "CustomerName") "Bu müşteriyi"
      else jsOrString (s.tui.formData "ProductCode") "Bu ürünü"
    { s with tui := { s.tui with
                      previousView := some s.tui.currentView,
                      currentView := View.confirmAction,
                      confirmAction := some CAction.delete,
                      confirmMessage := some (fvToString recordName ++ " silmek istediğinizden emin misiniz?"),
                      confirmIndex := 0 },
             lastPaint := Paint.confirmBox }
  else if key = "\x0e" ∧ isListView s.tui.currentView then
    if s.tui.currentView = View.customerList then
      { s with tui := { s.tui with
                        currentView := View.customerForm, formData := emptyData,
                        formStep := 0, editingId := none, inputBuffer := "" },
               lastPaint := Paint.form }
    else
      { s with tui := { s.tui with
                        currentView := View.productForm, formData := emptyData,
                        formStep := 0, editingId := none, inputBuffer := "" },
               lastPaint := Paint.form }
  else if key = "\x1b" then handleEscape s
  else viewDispatch key s

/-- Feed a sequence of raw key events to the controller. -/
def runKeys (ks : List String) (s : Sys) : Sys :=
  ks.foldl (fun t k => handleKeyPress k t) s

/-! ## The initial state and concrete states used to instantiate theorems -/

/-- The initial `tuiState` object of `server.ts`. -/
def initTuiState : Tui where
  currentView := View.main
  selectedIndex := 0
  searchFilter := ""
  isSearching := false
  formData := emptyData
  formStep := 0
  editingId := none
  inputBuffer := ""
  confirmIndex := 0
  previousView := none
  confirmAction := none
  confirmMessage := none

/-- Package a `Tui` with concrete tables into a world state. -/
def mkSys (t : Tui) (cs ps : List Row) : Sys where
  tui := t
  customers := cs
  products := ps
  nextId := 0
  timers := []
  lastPaint := Paint.mainMenu
  exited := false

/-- A sample stored customer row. -/
def rowA : Row := fun f =>
  if f = "id" then FV.str "a1"
  else if f = "CustomerName" then FV.str "Ada"
  else if f = "CustomerPhone" then FV.str "555"
  else FV.undef

/-- A second sample stored customer row. -/
def rowB : Row := fun f =>
  if f = "id" then FV.str "b2"
  else if f = "CustomerName" then FV.str "Bob"
  else if f = "CustomerPhone" then FV.str "777"
  else FV.undef

/-- Concrete state: customer list with two records, no filter. -/
def c1SysW : Sys := mkSys { initTuiState with currentView := View.customerList } [rowA, rowB] []

/-- Concrete state: customer form with an uncommitted buffer `"X"`. -/
def c2SysW : Sys := mkSys { initTuiState with
  currentView := View.customerForm, inputBuffer := "X" } [] []

/-- Concrete state: customer form on the numeric `CustomerDebt` step with an
empty buffer. -/
def c3SysW : Sys := mkSys { initTuiState with
  currentView := View.customerForm, formStep := 5, inputBuffer := "" } [] []

/-- As `c3SysW` but with a non-numeric buffer. -/
def c3SysW2 : Sys := mkSys { initTuiState with
  currentView := View.customerForm, formStep := 5, inputBuffer := "abc" } [] []

/-- Concrete state: delete confirmation (index already 1) for an `editingId`
that matches no stored customer. -/
def c4SysW : Sys := mkSys { initTuiState with
  currentView := View.confirmAction, confirmIndex := 1,
  confirmAction := some CAction.delete, previousView := some View.customerForm,
  editingId := some (FV.str "ghost") } [] []

/-- As `c4SysW` but with a pending save (update path). -/
def c4SysW2 : Sys := mkSys { initTuiState with
  currentView := View.confirmAction, confirmIndex := 1,
  confirmAction := some CAction.save, previousView := some View.customerForm,
  editingId := some (FV.str "ghost") } [] []

/-- Concrete state: freshly entered delete confirmation (default index 0)
with one stored customer. -/
def c5SysW : Sys := mkSys { initTuiState with
  currentView := View.confirmAction, confirmIndex := 0,
  confirmAction := some CAction.delete, previousView := some View.customerForm,
  editingId := some (FV.str "a1") } [rowA] []

/-- A customer form state one Ctrl+D away from `c5SysW`. -/
def c5FormW : Sys := mkSys { initTuiState with
  currentView := View.customerForm, editingId := some (FV.str "a1") } [rowA] []

/-- Edit-mode seed whose numeric `CustomerDebt` is `0`. -/
def c6SeedData : Row := fun f =>
  if f = "id" then FV.str "a1"
  else if f = "CustomerName" then FV.str "Ada"
  else if f = "CustomerPhone" then FV.str "555"
  else if f = "CustomerAddress" then FV.str ""
  else if f = "CustomerTCKN" then FV.str "1"
  else if f = "CustomerVD" then FV.str "v"
  else if f = "CustomerDebt" then FV.num ⟨0, 0⟩
  else if f = "CustomerBalance" then FV.num ⟨2, 0⟩
  else FV.undef

/-- Edit-mode seed with nonzero numeric fields. -/
def c6GoodData : Row := fun f =>
  if f = "id" then FV.str "a1"
  else if f = "CustomerName" then FV.str "Ada"
  else if f = "CustomerPhone" then FV.str "555"
  else if f = "CustomerAddress" then FV.str ""
  else if f = "CustomerTCKN" then FV.str "1"
  else if f = "CustomerVD" then FV.str "v"
  else if f = "CustomerDebt" then FV.num ⟨5, 0⟩
  else if f = "CustomerBalance" then FV.num ⟨25, 1⟩
  else FV.undef

/-- Customer form freshly entered in edit mode on `c6SeedData`. -/
def c6SysCE : Sys := mkSys { initTuiState with
  currentView := View.customerForm, formStep := 0, formData := c6SeedData,
  editingId := some (FV.str "a1"), inputBuffer := "Ada" } [] []

/-- Customer form freshly entered in edit mode on `c6GoodData`. -/
def c6SysW : Sys := mkSys { initTuiState with
  currentView := View.customerForm, formStep := 0, formData := c6GoodData,
  editingId := some (FV.str "a1"), inputBuffer := "Ada" } [] []

/-- A `Partial<Customer>`/`Partial<Product>`-style update object whose
numeric fields are `0`. -/
def c9uW : Row := fun f =>
  if f = "CustomerDebt" then FV.num ⟨0, 0⟩
  else if f = "Price" then FV.num ⟨0, 0⟩
  else if f = "Details" then FV.str ""
  else FV.str "new"

/-- A stored row with distinguishable current values. -/
def c9curW : Row := fun _ => FV.str "old"

/-- Concrete state: save confirmation (index 1, new-record mode) on the
first customer step with buffer `"Ada"`. -/
def c10SysW : Sys := mkSys { initTuiState with
  currentView := View.confirmAction, confirmIndex := 1,
  confirmAction := some CAction.save, previousView := some View.customerForm,
  editingId := none, formStep := 0, inputBuffer := "Ada" } [] []

/-- Concrete state: delete confirmation (index already 1) on a stored
customer, edit mode. -/
def c10DelW : Sys := mkSys { initTuiState with
  currentView := View.confirmAction, confirmIndex := 1,
  confirmAction := some CAction.delete, previousView := some View.customerForm,
  editingId := some (FV.str "a1"), formStep := 0, inputBuffer := "Ada" } [rowA] []

/-! ## Hypothesis predicates for the form round-trip -/

/-- `j`'s JS stringification parses back to `j` (true of every JS number the
forms produce; stated as a checkable hypothesis). -/
def roundTripsB (j : JsNum) : Bool := jsParseFloat (numToString j) == some j

/-- A seed value that a commit of its own reseeded buffer reproduces:
numeric steps need a nonzero round-tripping number, text steps a string. -/
def goodVal (isNumber : Bool) (v : FV) : Bool :=
  if isNumber then
    match v with
    | FV.num j => !(j.mant == 0) && roundTripsB j
    | _ => false
  else
    match v with
    | FV.str _ => true
    | _ => false

/-- Every step's seed value is good (checked over a step list). -/
def goodSeed (steps : List FormStep) (fd : Row) : Bool :=
  steps.all (fun st => goodVal st.isNumber (fd st.field))

/-- The number of records the current list view displays under the current
filter. -/
def filteredCount (s : Sys) : ℕ :=
  (filterRecords (if s.tui.currentView = View.customerList then s.customers else s.products)
    s.tui.searchFilter (s.tui.currentView = View.customerList)).length

/-! ## Basic facts about the string helpers -/

theorem listContains_nil (h : List Char) : listContains [] h = true := by
  cases h <;> simp [listContains, startsWithChars, List.isEmpty]

theorem jsToLower_empty : jsToLower "" = "" := by decide

theorem containsSubstr_empty (hay : String) : containsSubstr hay "" = true := by
  unfold containsSubstr
  exact listContains_nil _

theorem jsParseFloat_42 : jsParseFloat "42" = some ⟨42, 0⟩ := by decide

theorem numToString_half : numToString ⟨5, 1⟩ = "0.5" := by decide

/-! ## C7: the filter predicate -/

/-- C7.  `filterRecords` returns exactly the records (in their original
order) for which at least one of the entity's fixed field subset contains
the filter text as a case-insensitive substring; since the empty filter's
predicate matches everything, the empty filter returns all records in their
original order. -/
theorem c7_filterRecords_eq_spec_filter (recs : List Row) (t : String) (ic : Bool) :
    filterRecords recs t ic = recs.filter (fun r => specMatches ic t r) := by
  unfold filterRecords
  by_cases ht : t = ""
  · subst ht
    rw [if_pos rfl]
    symm
    apply List.filter_eq_self.mpr
    intro r _
    cases ic <;>
      simp [specMatches, specFilterFields, jsToLower_empty, containsSubstr_empty]
  · rw [if_neg ht]
    apply List.filter_congr
    intro r _
    cases ic <;>
      simp [specMatches, specFilterFields, Bool.or_assoc]

/-! ## C9: falsy-preserving updates -/

/-- C9.  In both `customerOps.update` and `productOps.update`, any column
whose supplied new value is falsy (`0`, `''` or absent) is written back as
the record's current stored value (`updates.X || current.X`), so such an
edit is never persisted. -/
theorem c9_falsy_update_preserved (u cur : Row) (f : String) :
    (f ∈ customerColumns → falsy (u f) = true → applyCustomerUpdate u cur f = cur f) ∧
    (f ∈ productColumns → falsy (u f) = true → applyProductUpdate u cur f = cur f) := by
  constructor
  · intro hf hv
    simp only [customerColumns, List.mem_cons, List.not_mem_nil, or_false] at hf
    rcases hf with h | h | h | h | h | h | h <;> subst h <;>
      simp [applyCustomerUpdate, jsOr, hv]
  · intro hf hv
    simp only [productColumns, List.mem_cons, List.not_mem_nil, or_false] at hf
    rcases hf with h | h | h | h | h | h | h | h <;> subst h <;>
      simp [applyProductUpdate, jsOr, hv]

theorem c9_witness :
    applyCustomerUpdate c9uW c9curW "CustomerDebt" = c9curW "CustomerDebt" ∧
    applyProductUpdate c9uW c9curW "Price" = c9curW "Price" ∧
    applyProductUpdate c9uW c9curW "Details" = c9curW "Details" :=
  ⟨(c9_falsy_update_preserved c9uW c9curW "CustomerDebt").1 (by decide) (by decide),
   (c9_falsy_update_preserved c9uW c9curW "Price").2 (by decide) (by decide),
   (c9_falsy_update_preserved c9uW c9curW "Details").2 (by decide) (by decide)⟩

/-! ## C3: numeric field commits -/

/-- C3 (corrected).  Committing a numeric step via `moveToNextField` parses
a non-empty buffer as a decimal (`parseFloat(b) || 0`, so a non-numeric
buffer commits the number `0` and `"42"` commits `42`), but an *empty*
buffer takes the string branch and commits the empty string `''`, not `0`. -/
theorem c3_numeric_commit (s : Sys) (st : FormStep)
    (hst : (stepsOfView s.tui.currentView).get? s.tui.formStep = some st)
    (hnum : st.isNumber = true) :
    (jsParseFloat s.tui.inputBuffer = none → s.tui.inputBuffer ≠ "" →
        (moveToNextField s).tui.formData st.field = FV.num ⟨0, 0⟩) ∧
    (s.tui.inputBuffer = "42" →
        (moveToNextField s).tui.formData st.field = FV.num ⟨42, 0⟩) ∧
    (s.tui.inputBuffer = "" →
        (moveToNextField s).tui.formData st.field = FV.str "") := by
  have hfd : (moveToNextField s).tui.formData st.field
      = commitVal st.isNumber s.tui.inputBuffer := by
    simp only [moveToNextField]
    rw [hst]
    split
    · simp_all
    · rename_i cur heq
      injection heq with h2
      subst h2
      split <;> simp [setField]
  refine ⟨?_, ?_, ?_⟩
  · intro hpf hne
    rw [hfd]
    unfold commitVal
    rw [if_pos ⟨hnum, hne⟩, hpf]
    rfl
  · intro hb
    rw [hfd, hb]
    unfold commitVal
    rw [if_pos ⟨hnum, by decide⟩, jsParseFloat_42]
    rfl
  · intro hb
    rw [hfd, hb]
    unfold commitVal
    rw [if_neg (fun h => h.2 rfl)]

theorem c3_counterexample :
    (moveToNextField c3SysW).tui.formData "CustomerDebt" = FV.str "" ∧
    FV.str "" ≠ FV.num ⟨0, 0⟩ ∧
    c3SysW.tui.inputBuffer = "" ∧
    (customerFormSteps.get? c3SysW.tui.formStep).map FormStep.isNumber = some true := by
  decide

theorem c3_witness :
    (moveToNextField c3SysW2).tui.formData "CustomerDebt" = FV.num ⟨0, 0⟩ :=
  (c3_numeric_commit c3SysW2 ⟨"CustomerDebt", false, true⟩ (by decide) rfl).1
    (by decide) (by decide)

/-! ## C2: Ctrl+S from a form -/

/-- C2 (corrected).  Ctrl+S in a customer or product form enters the save
confirmation (`confirmAction = save`, `confirmIndex = 1`, `previousView`
remembering the form) but does *not* commit the current field: `formData`
and `inputBuffer` (and the stores) are untouched; the commit happens later
inside `executeFormSave` when the save is confirmed. -/
theorem c2_ctrlS_no_commit (s : Sys) (hv : isFormView s.tui.currentView) :
    (handleKeyPress "\x13" s).tui.currentView = View.confirmAction ∧
    (handleKeyPress "\x13" s).tui.confirmAction = some CAction.save ∧
    (handleKeyPress "\x13" s).tui.confirmIndex = 1 ∧
    (handleKeyPress "\x13" s).tui.previousView = some s.tui.currentView ∧
    (handleKeyPress "\x13" s).tui.formData = s.tui.formData ∧
    (handleKeyPress "\x13" s).tui.inputBuffer = s.tui.inputBuffer ∧
    (handleKeyPress "\x13" s).customers = s.customers ∧
    (handleKeyPress "\x13" s).products = s.products := by
  unfold handleKeyPress
  rw [if_neg (by decide), if_pos ⟨rfl, hv⟩]
  exact ⟨rfl, rfl, rfl, rfl, rfl, rfl, rfl, rfl⟩

theorem c2_counterexample :
    c2SysW.tui.inputBuffer = "X" ∧
    (handleKeyPress "\x13" c2SysW).tui.currentView = View.confirmAction ∧
    (handleKeyPress "\x13" c2SysW).tui.formData "CustomerName" = FV.undef ∧
    FV.undef ≠ FV.str "X" := by
  decide

theorem c2_witness :
    (handleKeyPress "\x13" c2SysW).tui.currentView = View.confirmAction ∧
    (handleKeyPress "\x13" c2SysW).tui.confirmAction = some CAction.save ∧
    (handleKeyPress "\x13" c2SysW).tui.confirmIndex = 1 ∧
    (handleKeyPress "\x13" c2SysW).tui.previousView = some c2SysW.tui.currentView ∧
    (handleKeyPress "\x13" c2SysW).tui.formData = c2SysW.tui.formData ∧
    (handleKeyPress "\x13" c2SysW).tui.inputBuffer = c2SysW.tui.inputBuffer ∧
    (handleKeyPress "\x13" c2SysW).customers = c2SysW.customers ∧
    (handleKeyPress "\x13" c2SysW).products = c2SysW.products :=
  c2_ctrlS_no_commit c2SysW (Or.inl rfl)

/-! ## Dispatch lemmas -/

/-- A key that is none of the global shortcuts falls through to the view
dispatch, as in the source. -/
theorem handleKeyPress_nonGlobal (k : String) (s : Sys)
    (h3 : k ≠ "\x03") (h13 : k ≠ "\x13") (h4 : k ≠ "\x04")
    (he : k ≠ "\x0e") (hesc : k ≠ "\x1b") :
    handleKeyPress k s = viewDispatch k s := by
  unfold handleKeyPress
  rw [if_neg h3, if_neg (fun h => h13 h.1), if_neg (fun h => h4 h.1),
    if_neg (fun h => he h.1), if_neg hesc]

/-- In the confirmation view, Enter executes the pending action when the
index is 1 and cancels otherwise. -/
theorem handleKeyPress_enter_confirm (s : Sys)
    (hv : s.tui.currentView = View.confirmAction) :
    handleKeyPress "\r" s =
      if s.tui.confirmIndex = 1 then
        match s.tui.confirmAction with
        | some CAction.save => executeFormSave s
        | some CAction.delete => executeFormDelete s
        | none => s
      else returnToForm s := by
  rw [handleKeyPress_nonGlobal "\r" s (by decide) (by decide) (by decide) (by decide) (by decide)]
  unfold viewDispatch
  rw [hv]
  unfold handleConfirmation
  rw [if_neg (by decide), if_neg (by decide), if_pos (Or.inl rfl)]

/-- If no row satisfies the lookup, filtering out the matching rows is the
identity (the shape of a `DELETE` whose `WHERE` matches nothing). -/
theorem filter_not_of_find?_none {p : Row → Bool} {l : List Row}
    (h : l.find? p = none) : l.filter (fun r => !(p r)) = l := by
  apply List.filter_eq_self.mpr
  intro a ha
  have hp := List.find?_eq_none.mp h a ha
  simp_all

/-- `customerOps.update` on a vanished id leaves the table unchanged. -/
theorem customerUpdateStore_notfound {cs : List Row} {i : FV} {u : Row}
    (h : cs.find? (rowIdIs i) = none) : customerUpdateStore cs i u = cs := by
  unfold customerUpdateStore
  rw [h]

/-- `productOps.update` on a vanished id leaves the table unchanged. -/
theorem productUpdateStore_notfound {ps : List Row} {i : FV} {u : Row}
    (h : ps.find? (rowIdIs i) = none) : productUpdateStore ps i u = ps := by
  unfold productUpdateStore
  rw [h]

/-- `productOps.update` on a vanished id raises nothing. -/
theorem productUpdateThrows_notfound {ps : List Row} {i : FV} {u : Row}
    (h : ps.find? (rowIdIs i) = none) : productUpdateThrows ps i u = false := by
  unfold productUpdateThrows
  rw [h]

/-- Confirmed delete from a customer form: the success Message is shown
unconditionally and the table is filtered by id. -/
theorem executeFormDelete_customer (s : Sys) (i : FV)
    (hprev : s.tui.previousView = some View.customerForm)
    (hid : s.tui.editingId = some i) :
    executeFormDelete s = showMessage "✅ Müşteri başarıyla silindi" false
      { s with customers := s.customers.filter (fun r => !(rowIdIs i r)) } := by
  unfold executeFormDelete
  rw [if_pos hprev, hid]

/-- Confirmed delete from a product form. -/
theorem executeFormDelete_product (s : Sys) (i : FV)
    (hprev : s.tui.previousView = some View.productForm)
    (hid : s.tui.editingId = some i) :
    executeFormDelete s = showMessage "✅ Ürün başarıyla silindi" false
      { s with products := s.products.filter (fun r => !(rowIdIs i r)) } := by
  unfold executeFormDelete
  rw [if_neg (by rw [hprev]; decide), if_pos hprev, hid]

/-- Confirmed save from a customer form in edit mode: commit the current
field, run the update, and show the success Message whatever the update
returned. -/
theorem executeFormSave_customer_update (s : Sys) (i : FV) (st : FormStep)
    (hprev : s.tui.previousView = some View.customerForm)
    (hst : customerFormSteps.get? s.tui.formStep = some st)
    (hid : s.tui.editingId = some i) (hi : falsy i = false) :
    executeFormSave s =
      showMessage "✅ Müşteri başarıyla güncellendi" false
        { s with
          tui := { s.tui with
                   formData := setField s.tui.formData st.field
                     (commitVal st.isNumber s.tui.inputBuffer) },
          customers := customerUpdateStore s.customers i
            (setField s.tui.formData st.field (commitVal st.isNumber s.tui.inputBuffer)) } := by
  simp only [executeFormSave]
  rw [if_pos hprev, hst]
  dsimp only
  rw [if_pos hprev, if_pos (by rw [hid]; simp [truthyB, hi]), hid]
  rfl

/-- Confirmed save from a product form in edit mode, when the update raises
no UNIQUE violation. -/
theorem executeFormSave_product_update (s : Sys) (i : FV) (st : FormStep)
    (hprev : s.tui.previousView = some View.productForm)
    (hst : productFormSteps.get? s.tui.formStep = some st)
    (hid : s.tui.editingId = some i) (hi : falsy i = false)
    (hnothrow : productUpdateThrows s.products i
      (setField s.tui.formData st.field (commitVal st.isNumber s.tui.inputBuffer)) = false) :
    executeFormSave s =
      showMessage "✅ Ürün başarıyla güncellendi" false
        { s with
          tui := { s.tui with
                   formData := setField s.tui.formData st.field
                     (commitVal st.isNumber s.tui.inputBuffer) },
          products := productUpdateStore s.products i
            (setField s.tui.formData st.field (commitVal st.isNumber s.tui.inputBuffer)) } := by
  simp only [executeFormSave]
  rw [if_neg (by rw [hprev]; decide), hst]
  dsimp only
  rw [if_neg (by rw [hprev]; decide), if_pos hprev,
    if_pos (by rw [hid]; simp [truthyB, hi]), hid]
  dsimp only [Option.getD]
  rw [if_neg (by rw [hnothrow]; decide)]

/-- Confirmed save from a customer form in new-record mode, when the commit
leaves `CustomerName` defined: a fresh row is appended. -/
theorem executeFormSave_customer_create (s : Sys) (st : FormStep)
    (hprev : s.tui.previousView = some View.customerForm)
    (hst : customerFormSteps.get? s.tui.formStep = some st)
    (hid : s.tui.editingId = none)
    (hnn : setField s.tui.formData st.field (commitVal st.isNumber s.tui.inputBuffer)
      "CustomerName" ≠ FV.undef) :
    executeFormSave s =
      showMessage "✅ Müşteri başarıyla oluşturuldu" false
        { s with
          tui := { s.tui with
                   formData := setField s.tui.formData st.field
                     (commitVal st.isNumber s.tui.inputBuffer) },
          customers := s.customers ++
            [customerRowOf (FV.str ("uuid-" ++ Nat.repr s.nextId))
              (setField s.tui.formData st.field (commitVal st.isNumber s.tui.inputBuffer))],
          nextId := s.nextId + 1 } := by
  simp only [executeFormSave]
  rw [if_pos hprev, hst]
  dsimp only
  rw [if_pos hprev, if_neg (by rw [hid]; decide),
    if_neg (by simp [customerCreateThrows, hnn])]

/-! ## C4: the not-found edit target -/

/-- C4 (corrected).  If the record behind `editingId` no longer exists at
confirm time, confirming save (update path) or delete still shows the
*success* Message screen (`isError = false`), not a failure: the source
ignores `update`'s `null` and `delete`'s `false` result, and the store is
simply left unchanged.  Failure Messages arise only from thrown store
exceptions. -/
theorem c4_notfound_shows_success (s : Sys) (i : FV)
    (hv : s.tui.currentView = View.confirmAction)
    (hidx : s.tui.confirmIndex = 1)
    (hid : s.tui.editingId = some i)
    (hi : falsy i = false) :
    (s.tui.previousView = some View.customerForm →
      s.customers.find? (rowIdIs i) = none →
      ((s.tui.confirmAction = some CAction.delete →
        (handleKeyPress "\r" s).lastPaint = Paint.message "✅ Müşteri başarıyla silindi" false ∧
        (handleKeyPress "\r" s).customers = s.customers) ∧
       (∀ st : FormStep, s.tui.confirmAction = some CAction.save →
        customerFormSteps.get? s.tui.formStep = some st →
        (handleKeyPress "\r" s).lastPaint = Paint.message "✅ Müşteri başarıyla güncellendi" false ∧
        (handleKeyPress "\r" s).customers = s.customers))) ∧
    (s.tui.previousView = some View.productForm →
      s.products.find? (rowIdIs i) = none →
      ((s.tui.confirmAction = some CAction.delete →
        (handleKeyPress "\r" s).lastPaint = Paint.message "✅ Ürün başarıyla silindi" false ∧
        (handleKeyPress "\r" s).products = s.products) ∧
       (∀ st : FormStep, s.tui.confirmAction = some CAction.save →
        productFormSteps.get? s.tui.formStep = some st →
        (handleKeyPress "\r" s).lastPaint = Paint.message "✅ Ürün başarıyla güncellendi" false ∧
        (handleKeyPress "\r" s).products = s.products))) := by
  refine ⟨fun hprev hmiss => ⟨fun hca => ?_, fun st hca hst => ?_⟩,
          fun hprev hmiss => ⟨fun hca => ?_, fun st hca hst => ?_⟩⟩
  · rw [handleKeyPress_enter_confirm s hv, if_pos hidx, hca]
    dsimp only
    rw [executeFormDelete_customer s i hprev hid]
    exact ⟨rfl, filter_not_of_find?_none hmiss⟩
  · rw [handleKeyPress_enter_confirm s hv, if_pos hidx, hca]
    dsimp only
    rw [executeFormSave_customer_update s i st hprev hst hid hi]
    exact ⟨rfl, customerUpdateStore_notfound hmiss⟩
  · rw [handleKeyPress_enter_confirm s hv, if_pos hidx, hca]
    dsimp only
    rw [executeFormDelete_product s i hprev hid]
    exact ⟨rfl, filter_not_of_find?_none hmiss⟩
  · rw [handleKeyPress_enter_confirm s hv, if_pos hidx, hca]
    dsimp only
    rw [executeFormSave_product_update s i st hprev hst hid hi
      (productUpdateThrows_notfound hmiss)]
    exact ⟨rfl, productUpdateStore_notfound hmiss⟩

theorem c4_counterexample :
    (handleKeyPress "\r" c4SysW).lastPaint = Paint.message "✅ Müşteri başarıyla silindi" false ∧
    c4SysW.customers.length = 0 ∧
    c4SysW.tui.editingId = some (FV.str "ghost") ∧
    (handleKeyPress "\r" c4SysW).customers.length = 0 := by
  decide

theorem c4_witness :
    ((handleKeyPress "\r" c4SysW).lastPaint = Paint.message "✅ Müşteri başarıyla silindi" false ∧
     (handleKeyPress "\r" c4SysW).customers = c4SysW.customers) ∧
    ((handleKeyPress "\r" c4SysW2).lastPaint = Paint.message "✅ Müşteri başarıyla güncellendi" false ∧
     (handleKeyPress "\r" c4SysW2).customers = c4SysW2.customers) :=
  ⟨((c4_notfound_shows_success c4SysW (FV.str "ghost") rfl rfl rfl (by decide)).1
      rfl rfl).1 rfl,
   ((c4_notfound_shows_success c4SysW2 (FV.str "ghost") rfl rfl rfl (by decide)).1
      rfl rfl).2 ⟨"CustomerName", true, false⟩ rfl (by decide)⟩

/-! ## C8: the auto-return timers -/

theorem moveToNextField_timers (s : Sys) : (moveToNextField s).timers = s.timers := by
  simp only [moveToNextField]
  repeat' split
  all_goals rfl

theorem moveToPrevField_timers (s : Sys) : (moveToPrevField s).timers = s.timers := by
  simp only [moveToPrevField]
  repeat' split
  all_goals rfl

theorem handleListView_timers (k : String) (s : Sys) :
    (handleListView k s).timers = s.timers := by
  simp only [handleListView, openEditForm]
  repeat' split
  all_goals rfl

theorem handleFormView_timers (k : String) (s : Sys) :
    (handleFormView k s).timers = s.timers := by
  unfold handleFormView
  repeat' split
  all_goals solve
    | rfl
    | exact moveToPrevField_timers s
    | exact moveToNextField_timers s

theorem handleMainMenu_timers (k : String) (s : Sys) :
    ∃ ts, (handleMainMenu k s).timers = s.timers ++ ts := by
  unfold handleMainMenu enterCustomerList enterProductList showStats
  repeat' split
  all_goals solve
    | exact ⟨[TimerKind.statsReturn], rfl⟩
    | (refine ⟨[], ?_⟩; simp)

theorem handleEscape_timers (s : Sys) : (handleEscape s).timers = s.timers := by
  unfold handleEscape enterCustomerList enterProductList
  repeat' split
  all_goals rfl

theorem returnToForm_timers (s : Sys) : (returnToForm s).timers = s.timers := by
  unfold returnToForm
  repeat' split
  all_goals rfl

theorem executeFormSave_timers (s : Sys) :
    ∃ ts, (executeFormSave s).timers = s.timers ++ ts := by
  simp only [executeFormSave, showMessage]
  repeat' split
  all_goals solve
    | exact ⟨[TimerKind.messageReturn], rfl⟩
    | (refine ⟨[], ?_⟩; simp)

theorem executeFormDelete_timers (s : Sys) :
    ∃ ts, (executeFormDelete s).timers = s.timers ++ ts := by
  simp only [executeFormDelete, showMessage]
  repeat' split
  all_goals solve
    | exact ⟨[TimerKind.messageReturn], rfl⟩
    | (refine ⟨[], ?_⟩; simp)

theorem handleConfirmation_timers (k : String) (s : Sys) :
    ∃ ts, (handleConfirmation k s).timers = s.timers ++ ts := by
  unfold handleConfirmation
  repeat' split
  all_goals solve
    | exact executeFormSave_timers s
    | exact executeFormDelete_timers s
    | (refine ⟨[], ?_⟩; simp [returnToForm_timers])
    | (refine ⟨[], ?_⟩; simp)

theorem handleKeyPress_timers (k : String) (s : Sys) :
    ∃ ts, (handleKeyPress k s).timers = s.timers ++ ts := by
  unfold handleKeyPress viewDispatch
  repeat' split
  all_goals solve
    | exact handleMainMenu_timers k s
    | exact handleConfirmation_timers k s
    | (refine ⟨[], ?_⟩; simp [handleEscape_timers])
    | (refine ⟨[], ?_⟩; simp [handleListView_timers])
    | (refine ⟨[], ?_⟩; simp [handleFormView_timers])
    | (refine ⟨[], ?_⟩; simp)

/-- C8.  No key handler ever removes a scheduled auto-return callback (the
pending list only ever grows), and whenever a Message or Stats callback
fires it overwrites `currentView` and the associated session fields with its
own target, whatever the state says at that moment — so any user action
taken in between is overridden. -/
theorem c8_timers_never_cancelled :
    (∀ (k : String) (s : Sys), ∃ ts, (handleKeyPress k s).timers = s.timers ++ ts) ∧
    (∀ s : Sys,
      (fireMessageTimer s).tui.currentView =
        (if s.tui.previousView = some View.customerForm then View.customerList
         else View.productList) ∧
      (fireMessageTimer s).tui.selectedIndex = 0 ∧
      (fireMessageTimer s).tui.isSearching = false ∧
      (fireMessageTimer s).tui.searchFilter = "" ∧
      (fireMessageTimer s).tui.inputBuffer = "" ∧
      (fireMessageTimer s).tui.editingId = none ∧
      (fireMessageTimer s).tui.formData = emptyData ∧
      (fireMessageTimer s).lastPaint = Paint.listView) ∧
    (∀ s : Sys,
      (fireStatsTimer s).tui.currentView = View.main ∧
      (fireStatsTimer s).tui.selectedIndex = 0 ∧
      (fireStatsTimer s).lastPaint = Paint.mainMenu) := by
  refine ⟨handleKeyPress_timers, fun s => ?_, fun s => ⟨rfl, rfl, rfl⟩⟩
  by_cases h : s.tui.previousView = some View.customerForm <;>
    simp [fireMessageTimer, h]

/-! ## C1: the list cursor invariant -/

/-- In a list view the final switch dispatches to `handleListView`. -/
theorem viewDispatch_list (k : String) (s : Sys) (hv : isListView s.tui.currentView) :
    viewDispatch k s = handleListView k s := by
  unfold viewDispatch
  rcases hv with h | h <;> rw [h]

/-- While searching, arrow keys are no-ops in a list view. -/
theorem handleListView_arrow_searching (s : Sys) (k : String)
    (hs : s.tui.isSearching = true) (hk : k = "\x1b[A" ∨ k = "\x1b[B") :
    handleListView k s = s := by
  simp only [handleListView]
  rw [if_pos (by simp [hs])]
  rcases hk with rfl | rfl <;>
    rw [if_neg (by decide), if_neg (by decide), if_neg (by decide)]

/-- Navigation-mode Up: clamped decrement when the filtered set is
non-empty, no-op otherwise. -/
theorem handleListView_up_eq (s : Sys) (hs : s.tui.isSearching = false) :
    handleListView "\x1b[A" s =
      if 0 < filteredCount s then
        { s with tui := { s.tui with selectedIndex := s.tui.selectedIndex - 1 },
                 lastPaint := Paint.listView }
      else s := by
  by_cases hn : 0 < filteredCount s
  · rw [if_pos hn]
    simp only [filteredCount] at hn
    simp [handleListView, hs, hn]
  · rw [if_neg hn]
    simp only [filteredCount] at hn
    simp [handleListView, hs, hn, show isPrintable "\x1b[A" = false from by decide]

/-- Navigation-mode Down: clamped increment when the filtered set is
non-empty, no-op otherwise. -/
theorem handleListView_down_eq (s : Sys) (hs : s.tui.isSearching = false) :
    handleListView "\x1b[B" s =
      if 0 < filteredCount s then
        { s with tui := { s.tui with
                          selectedIndex := min (filteredCount s - 1) (s.tui.selectedIndex + 1) },
                 lastPaint := Paint.listView }
      else s := by
  by_cases hn : 0 < filteredCount s
  · rw [if_pos hn]
    simp only [filteredCount] at hn
    simp [handleListView, hs, hn, filteredCount]
  · rw [if_neg hn]
    simp only [filteredCount] at hn
    simp [handleListView, hs, hn, show isPrintable "\x1b[B" = false from by decide]

/-- One Up/Down event in a list view: the view, filter and stores are
unchanged, so the filtered count is unchanged; the cursor bound is
preserved; and on an empty filtered set the event is a perfect no-op. -/
theorem listnav_step (s : Sys) (k : String)
    (hk : k = "\x1b[A" ∨ k = "\x1b[B") (hv : isListView s.tui.currentView) :
    isListView (handleKeyPress k s).tui.currentView ∧
    filteredCount (handleKeyPress k s) = filteredCount s ∧
    (s.tui.selectedIndex ≤ filteredCount s - 1 →
      (handleKeyPress k s).tui.selectedIndex ≤ filteredCount s - 1) ∧
    (filteredCount s = 0 → handleKeyPress k s = s) := by
  have hd : handleKeyPress k s = handleListView k s := by
    rcases hk with rfl | rfl <;>
      rw [handleKeyPress_nonGlobal _ s (by decide) (by decide) (by decide) (by decide) (by decide),
        viewDispatch_list _ s hv]
  rw [hd]
  by_cases hs : s.tui.isSearching = true
  · rw [handleListView_arrow_searching s k hs hk]
    exact ⟨hv, rfl, fun h => h, fun _ => rfl⟩
  · have hs' : s.tui.isSearching = false := by
      cases hb : s.tui.isSearching
      · rfl
      · exact absurd hb hs
    rcases hk with rfl | rfl
    · rw [handleListView_up_eq s hs']
      by_cases hn : 0 < filteredCount s
      · rw [if_pos hn]
        refine ⟨hv, rfl, fun h => ?_, fun h0 => absurd h0 (by omega)⟩
        exact le_trans (Nat.sub_le _ _) h
      · rw [if_neg hn]
        exact ⟨hv, rfl, fun h => h, fun _ => rfl⟩
    · rw [handleListView_down_eq s hs']
      by_cases hn : 0 < filteredCount s
      · rw [if_pos hn]
        refine ⟨hv, rfl, fun h => ?_, fun h0 => absurd h0 (by omega)⟩
        exact min_le_left _ _
      · rw [if_neg hn]
        exact ⟨hv, rfl, fun h => h, fun _ => rfl⟩

/-- C1.  Over any sequence of Up/Down key events handled in a list view,
`selectedIndex` stays within `[0, max(0, filteredCount-1)]` (in ℕ:
`selectedIndex ≤ filteredCount - 1`, which forces `0` when the filtered set
is empty), the filtered count itself being unchanged by such events; and on
an empty filtered set Up and Down are no-ops. -/
theorem c1_selectedIndex_invariant :
    (∀ (s : Sys) (ks : List String),
      isListView s.tui.currentView →
      (∀ k ∈ ks, k = "\x1b[A" ∨ k = "\x1b[B") →
      s.tui.selectedIndex ≤ filteredCount s - 1 →
      isListView (runKeys ks s).tui.currentView ∧
      filteredCount (runKeys ks s) = filteredCount s ∧
      (runKeys ks s).tui.selectedIndex ≤ filteredCount (runKeys ks s) - 1) ∧
    (∀ s : Sys, isListView s.tui.currentView → filteredCount s = 0 →
      handleKeyPress "\x1b[A" s = s ∧ handleKeyPress "\x1b[B" s = s) := by
  constructor
  · intro s ks
    induction ks generalizing s with
    | nil => exact fun hv _ hinv => ⟨hv, rfl, hinv⟩
    | cons k ks ih =>
      intro hv hks hinv
      have hstep := listnav_step s k (hks k (List.mem_cons_self k ks)) hv
      have hrun : runKeys (k :: ks) s = runKeys ks (handleKeyPress k s) := rfl
      have hrec := ih (handleKeyPress k s) hstep.1
        (fun k2 hk2 => hks k2 (List.mem_cons_of_mem k hk2))
        (by rw [hstep.2.1]; exact hstep.2.2.1 hinv)
      rw [hrun]
      exact ⟨hrec.1, hrec.2.1.trans hstep.2.1, hrec.2.2⟩
  · intro s hv h0
    exact ⟨(listnav_step s _ (Or.inl rfl) hv).2.2.2 h0,
           (listnav_step s _ (Or.inr rfl) hv).2.2.2 h0⟩

theorem c1_witness :
    isListView (runKeys ["\x1b[B", "\x1b[B", "\x1b[A"] c1SysW).tui.currentView ∧
    filteredCount (runKeys ["\x1b[B", "\x1b[B", "\x1b[A"] c1SysW) = filteredCount c1SysW ∧
    (runKeys ["\x1b[B", "\x1b[B", "\x1b[A"] c1SysW).tui.selectedIndex ≤
      filteredCount (runKeys ["\x1b[B", "\x1b[B", "\x1b[A"] c1SysW) - 1 :=
  (c1_selectedIndex_invariant.1 c1SysW ["\x1b[B", "\x1b[B", "\x1b[A"]
    (Or.inl rfl) (by decide) (by decide))

/-! ## C5: the delete confirmation gate -/

/-- Enter (either byte form) in the confirmation view. -/
theorem handleKeyPress_enter_confirm2 (s : Sys) (k : String)
    (hk : k = "\r" ∨ k = "\n")
    (hv : s.tui.currentView = View.confirmAction) :
    handleKeyPress k s =
      if s.tui.confirmIndex = 1 then
        match s.tui.confirmAction with
        | some CAction.save => executeFormSave s
        | some CAction.delete => executeFormDelete s
        | none => s
      else returnToForm s := by
  rcases hk with rfl | rfl
  · exact handleKeyPress_enter_confirm s hv
  · rw [handleKeyPress_nonGlobal "\n" s (by decide) (by decide) (by decide) (by decide) (by decide)]
    unfold viewDispatch
    rw [hv]
    unfold handleConfirmation
    rw [if_neg (by decide), if_neg (by decide), if_pos (Or.inr rfl)]

theorem handleMainMenu_pres (k : String) (s : Sys) :
    (handleMainMenu k s).tui.confirmIndex = s.tui.confirmIndex ∧
    (handleMainMenu k s).customers = s.customers ∧
    (handleMainMenu k s).products = s.products := by
  unfold handleMainMenu enterCustomerList enterProductList showStats
  repeat' split
  all_goals exact ⟨rfl, rfl, rfl⟩

theorem handleListView_pres (k : String) (s : Sys) :
    (handleListView k s).tui.confirmIndex = s.tui.confirmIndex ∧
    (handleListView k s).customers = s.customers ∧
    (handleListView k s).products = s.products := by
  simp only [handleListView, openEditForm]
  repeat' split
  all_goals exact ⟨rfl, rfl, rfl⟩

theorem moveToNextField_pres (s : Sys) :
    (moveToNextField s).tui.confirmIndex = s.tui.confirmIndex ∧
    (moveToNextField s).customers = s.customers ∧
    (moveToNextField s).products = s.products := by
  simp only [moveToNextField]
  repeat' split
  all_goals exact ⟨rfl, rfl, rfl⟩

theorem moveToPrevField_pres (s : Sys) :
    (moveToPrevField s).tui.confirmIndex = s.tui.confirmIndex ∧
    (moveToPrevField s).customers = s.customers ∧
    (moveToPrevField s).products = s.products := by
  simp only [moveToPrevField]
  repeat' split
  all_goals exact ⟨rfl, rfl, rfl⟩

theorem handleFormView_pres (k : String) (s : Sys) :
    (handleFormView k s).tui.confirmIndex = s.tui.confirmIndex ∧
    (handleFormView k s).customers = s.customers ∧
    (handleFormView k s).products = s.products := by
  unfold handleFormView
  repeat' split
  all_goals solve
    | exact ⟨rfl, rfl, rfl⟩
    | exact moveToPrevField_pres s
    | exact moveToNextField_pres s

theorem returnToForm_pres (s : Sys) :
    (returnToForm s).tui.confirmIndex = s.tui.confirmIndex ∧
    (returnToForm s).customers = s.customers ∧
    (returnToForm s).products = s.products := by
  unfold returnToForm
  repeat' split
  all_goals exact ⟨rfl, rfl, rfl⟩

/-- One Left/Enter key event starting from `confirmIndex = 0` keeps the
index at 0 and both tables unchanged, whatever view is active. -/
theorem confirm_noright_step (s : Sys) (k : String)
    (hk : k = "\x1b[D" ∨ k = "\r" ∨ k = "\n")
    (hidx : s.tui.confirmIndex = 0) :
    (handleKeyPress k s).tui.confirmIndex = 0 ∧
    (handleKeyPress k s).customers = s.customers ∧
    (handleKeyPress k s).products = s.products := by
  have hd : handleKeyPress k s = viewDispatch k s := by
    rcases hk with rfl | rfl | rfl <;>
      exact handleKeyPress_nonGlobal _ s (by decide) (by decide) (by decide) (by decide) (by decide)
  rw [hd]
  unfold viewDispatch
  rcases hk with rfl | rfl | rfl <;> cases hcv : s.tui.currentView <;> dsimp only
  all_goals solve
    | exact ⟨(handleMainMenu_pres _ s).1.trans hidx,
        (handleMainMenu_pres _ s).2.1, (handleMainMenu_pres _ s).2.2⟩
    | exact ⟨(handleListView_pres _ s).1.trans hidx,
        (handleListView_pres _ s).2.1, (handleListView_pres _ s).2.2⟩
    | exact ⟨(handleFormView_pres _ s).1.trans hidx,
        (handleFormView_pres _ s).2.1, (handleFormView_pres _ s).2.2⟩
    | (unfold handleConfirmation
       rw [if_pos rfl]
       exact ⟨rfl, rfl, rfl⟩)
    | (unfold handleConfirmation
       rw [if_neg (by decide), if_neg (by decide), if_pos (by simp),
         if_neg (by rw [hidx]; decide)]
       exact ⟨(returnToForm_pres s).1.trans hidx,
         (returnToForm_pres s).2.1, (returnToForm_pres s).2.2⟩)

/-- C5.  Ctrl+D from an edit-mode form enters the delete confirmation with
`confirmIndex = 0` (default no); Enter while the index is 0 performs no
store call and returns to the originating form; and over any sequence of
Left/Enter gate keys (no Right arrow), starting from index 0, the stores
are never touched — a deletion can only execute after an explicit Right. -/
theorem c5_delete_requires_right :
    (∀ s : Sys, isFormView s.tui.currentView → truthyB s.tui.editingId = true →
      (handleKeyPress "\x04" s).tui.currentView = View.confirmAction ∧
      (handleKeyPress "\x04" s).tui.confirmAction = some CAction.delete ∧
      (handleKeyPress "\x04" s).tui.confirmIndex = 0 ∧
      (handleKeyPress "\x04" s).tui.previousView = some s.tui.currentView ∧
      (handleKeyPress "\x04" s).customers = s.customers ∧
      (handleKeyPress "\x04" s).products = s.products) ∧
    (∀ (s : Sys) (k : String), k = "\r" ∨ k = "\n" →
      s.tui.currentView = View.confirmAction → s.tui.confirmIndex = 0 →
      (handleKeyPress k s).customers = s.customers ∧
      (handleKeyPress k s).products = s.products ∧
      (s.tui.previousView = some View.customerForm →
        (handleKeyPress k s).tui.currentView = View.customerForm) ∧
      (s.tui.previousView = some View.productForm →
        (handleKeyPress k s).tui.currentView = View.productForm)) ∧
    (∀ (s : Sys) (ks : List String),
      (∀ k ∈ ks, k = "\x1b[D" ∨ k = "\r" ∨ k = "\n") →
      s.tui.confirmIndex = 0 →
      (runKeys ks s).customers = s.customers ∧
      (runKeys ks s).products = s.products) := by
  refine ⟨fun s hform hid => ?_, fun s k hk hv hidx => ?_, fun s ks => ?_⟩
  · unfold handleKeyPress
    rw [if_neg (by decide), if_neg (fun h => absurd h.1 (by decide)),
      if_pos ⟨rfl, hform, hid⟩]
    exact ⟨rfl, rfl, rfl, rfl, rfl, rfl⟩
  · rw [handleKeyPress_enter_confirm2 s k hk hv, if_neg (by rw [hidx]; decide)]
    refine ⟨(returnToForm_pres s).2.1, (returnToForm_pres s).2.2, fun hp => ?_, fun hp => ?_⟩
    · unfold returnToForm
      rw [if_pos hp]
    · unfold returnToForm
      rw [if_neg (by rw [hp]; decide), if_pos hp]
  · induction ks generalizing s with
    | nil => exact fun _ _ => ⟨rfl, rfl⟩
    | cons k ks ih =>
      intro hks hidx
      have hstep := confirm_noright_step s k (hks k (List.mem_cons_self k ks)) hidx
      have hrec := ih (handleKeyPress k s)
        (fun k2 hk2 => hks k2 (List.mem_cons_of_mem k hk2)) hstep.1
      exact ⟨hrec.1.trans hstep.2.1, hrec.2.trans hstep.2.2⟩

theorem c5_witness :
    ((handleKeyPress "\x04" c5FormW).tui.currentView = View.confirmAction ∧
     (handleKeyPress "\x04" c5FormW).tui.confirmAction = some CAction.delete ∧
     (handleKeyPress "\x04" c5FormW).tui.confirmIndex = 0 ∧
     (handleKeyPress "\x04" c5FormW).tui.previousView = some c5FormW.tui.currentView ∧
     (handleKeyPress "\x04" c5FormW).customers = c5FormW.customers ∧
     (handleKeyPress "\x04" c5FormW).products = c5FormW.products) ∧
    ((handleKeyPress "\r" c5SysW).customers = c5SysW.customers ∧
     (handleKeyPress "\r" c5SysW).products = c5SysW.products ∧
     (c5SysW.tui.previousView = some View.customerForm →
       (handleKeyPress "\r" c5SysW).tui.currentView = View.customerForm) ∧
     (c5SysW.tui.previousView = some View.productForm →
       (handleKeyPress "\r" c5SysW).tui.currentView = View.productForm)) ∧
    ((runKeys ["\x1b[D", "\r"] c5SysW).customers = c5SysW.customers ∧
     (runKeys ["\x1b[D", "\r"] c5SysW).products = c5SysW.products) :=
  ⟨c5_delete_requires_right.1 c5FormW (Or.inl rfl) (by decide),
   c5_delete_requires_right.2.1 c5SysW "\r" (Or.inl rfl) rfl rfl,
   c5_delete_requires_right.2.2 c5SysW ["\x1b[D", "\r"] (by decide) rfl⟩

/-! ## C10: the Message-screen window after a confirmed save or delete -/

/-- `executeFormSave` touches `formData` (the commit) and the stores, but
none of the view/confirmation/session-routing fields. -/
theorem executeFormSave_tui_pres (s : Sys) :
    (executeFormSave s).tui.currentView = s.tui.currentView ∧
    (executeFormSave s).tui.confirmIndex = s.tui.confirmIndex ∧
    (executeFormSave s).tui.confirmAction = s.tui.confirmAction ∧
    (executeFormSave s).tui.previousView = s.tui.previousView ∧
    (executeFormSave s).tui.editingId = s.tui.editingId ∧
    (executeFormSave s).tui.formStep = s.tui.formStep := by
  simp only [executeFormSave, showMessage]
  repeat' split
  all_goals exact ⟨rfl, rfl, rfl, rfl, rfl, rfl⟩

/-- `executeFormDelete` touches only the stores, the paint and the timer
list — never `tuiState`. -/
theorem executeFormDelete_tui_pres (s : Sys) : (executeFormDelete s).tui = s.tui := by
  simp only [executeFormDelete, showMessage]
  repeat' split
  all_goals rfl

/-- When `previousView` names a form (the only way the gate is reached),
`executeFormSave` always ends in `showMessage` — something is painted on
the Message screen. -/
theorem executeFormSave_paints (s : Sys)
    (hprev : s.tui.previousView = some View.customerForm ∨
             s.tui.previousView = some View.productForm) :
    ∃ m b, (executeFormSave s).lastPaint = Paint.message m b := by
  simp only [executeFormSave, showMessage]
  repeat' split
  all_goals solve
    | exact ⟨_, _, rfl⟩
    | (rcases hprev with h | h <;> simp_all)

/-- Same for `executeFormDelete`. -/
theorem executeFormDelete_paints (s : Sys)
    (hprev : s.tui.previousView = some View.customerForm ∨
             s.tui.previousView = some View.productForm) :
    ∃ m b, (executeFormDelete s).lastPaint = Paint.message m b := by
  simp only [executeFormDelete, showMessage]
  repeat' split
  all_goals solve
    | exact ⟨_, _, rfl⟩
    | (rcases hprev with h | h <;> simp_all)

/-- While `currentView = 'confirm-action'`, every key except the two
view-independent global shortcuts (Ctrl+C and Escape) reaches the final
`switch` and is dispatched to `handleConfirmation`: the form- and
list-guarded global shortcuts fall through in this view. -/
theorem handleKeyPress_confirm_dispatch (k : String) (s : Sys)
    (hv : s.tui.currentView = View.confirmAction)
    (h3 : k ≠ "\x03") (hesc : k ≠ "\x1b") :
    handleKeyPress k s = handleConfirmation k s := by
  have hnf : ¬ isFormView s.tui.currentView := by rw [hv]; decide
  have hnl : ¬ isListView s.tui.currentView := by rw [hv]; decide
  unfold handleKeyPress
  rw [if_neg h3, if_neg (fun h => hnf h.2), if_neg (fun h => hnf h.2.1),
    if_neg (fun h => hnl h.2), if_neg hesc]
  unfold viewDispatch
  rw [hv]

/-- C10.  Confirming a pending save or delete (Enter with `confirmIndex =
1`) paints the transient Message screen but leaves `currentView =
'confirm-action'` (and the whole confirmation state) until the auto-return
timer fires; every key event arriving in that window except the
view-independent globals (Ctrl+C, Escape) is therefore still dispatched to
the confirmation handler, and Enter re-executes the pending action: a
second Enter runs `executeFormSave` (resp. `executeFormDelete`) again on
the already-executed state. -/
theorem c10_confirm_window_reexecutes :
    (∀ s : Sys, s.tui.currentView = View.confirmAction → s.tui.confirmIndex = 1 →
      (s.tui.confirmAction = some CAction.save ∨ s.tui.confirmAction = some CAction.delete) →
      (handleKeyPress "\r" s).tui.currentView = View.confirmAction ∧
      (handleKeyPress "\r" s).tui.confirmIndex = 1 ∧
      (handleKeyPress "\r" s).tui.confirmAction = s.tui.confirmAction ∧
      (handleKeyPress "\r" s).tui.previousView = s.tui.previousView ∧
      (handleKeyPress "\r" s).tui.editingId = s.tui.editingId ∧
      ((s.tui.previousView = some View.customerForm ∨
        s.tui.previousView = some View.productForm) →
        ∃ m b, (handleKeyPress "\r" s).lastPaint = Paint.message m b)) ∧
    (∀ (k : String) (s : Sys), s.tui.currentView = View.confirmAction →
      k ≠ "\x03" → k ≠ "\x1b" →
      handleKeyPress k s = handleConfirmation k s) ∧
    (∀ s : Sys, s.tui.currentView = View.confirmAction → s.tui.confirmIndex = 1 →
      s.tui.confirmAction = some CAction.save →
      handleKeyPress "\r" s = executeFormSave s ∧
      handleKeyPress "\r" (handleKeyPress "\r" s) = executeFormSave (executeFormSave s)) ∧
    (∀ s : Sys, s.tui.currentView = View.confirmAction → s.tui.confirmIndex = 1 →
      s.tui.confirmAction = some CAction.delete →
      handleKeyPress "\r" s = executeFormDelete s ∧
      handleKeyPress "\r" (handleKeyPress "\r" s) = executeFormDelete (executeFormDelete s)) := by
  have hsave : ∀ s : Sys, s.tui.currentView = View.confirmAction →
      s.tui.confirmIndex = 1 → s.tui.confirmAction = some CAction.save →
      handleKeyPress "\r" s = executeFormSave s ∧
      handleKeyPress "\r" (handleKeyPress "\r" s) = executeFormSave (executeFormSave s) := by
    intro s hv hidx hca
    have h1 : handleKeyPress "\r" s = executeFormSave s := by
      rw [handleKeyPress_enter_confirm s hv, if_pos hidx, hca]
    have pres := executeFormSave_tui_pres s
    have hv2 : (handleKeyPress "\r" s).tui.currentView = View.confirmAction := by
      rw [h1]; exact pres.1.trans hv
    have hidx2 : (handleKeyPress "\r" s).tui.confirmIndex = 1 := by
      rw [h1]; exact pres.2.1.trans hidx
    have hca2 : (handleKeyPress "\r" s).tui.confirmAction = some CAction.save := by
      rw [h1]; exact pres.2.2.1.trans hca
    have h2 : handleKeyPress "\r" (handleKeyPress "\r" s)
        = executeFormSave (handleKeyPress "\r" s) := by
      rw [handleKeyPress_enter_confirm _ hv2, if_pos hidx2, hca2]
    exact ⟨h1, by rw [h2, h1]⟩
  have hdel : ∀ s : Sys, s.tui.currentView = View.confirmAction →
      s.tui.confirmIndex = 1 → s.tui.confirmAction = some CAction.delete →
      handleKeyPress "\r" s = executeFormDelete s ∧
      handleKeyPress "\r" (handleKeyPress "\r" s) = executeFormDelete (executeFormDelete s) := by
    intro s hv hidx hca
    have h1 : handleKeyPress "\r" s = executeFormDelete s := by
      rw [handleKeyPress_enter_confirm s hv, if_pos hidx, hca]
    have pres := executeFormDelete_tui_pres s
    have hv2 : (handleKeyPress "\r" s).tui.currentView = View.confirmAction := by
      rw [h1, pres]; exact hv
    have hidx2 : (handleKeyPress "\r" s).tui.confirmIndex = 1 := by
      rw [h1, pres]; exact hidx
    have hca2 : (handleKeyPress "\r" s).tui.confirmAction = some CAction.delete := by
      rw [h1, pres]; exact hca
    have h2 : handleKeyPress "\r" (handleKeyPress "\r" s)
        = executeFormDelete (handleKeyPress "\r" s) := by
      rw [handleKeyPress_enter_confirm _ hv2, if_pos hidx2, hca2]
    exact ⟨h1, by rw [h2, h1]⟩
  refine ⟨fun s hv hidx hca => ?_, handleKeyPress_confirm_dispatch, hsave, hdel⟩
  rcases hca with hca | hca
  · have h1 := (hsave s hv hidx hca).1
    have pres := executeFormSave_tui_pres s
    rw [h1]
    exact ⟨pres.1.trans hv, pres.2.1.trans hidx, pres.2.2.1, pres.2.2.2.1,
      pres.2.2.2.2.1, fun hp => executeFormSave_paints s hp⟩
  · have h1 := (hdel s hv hidx hca).1
    have pres := executeFormDelete_tui_pres s
    rw [h1, pres]
    exact ⟨hv, hidx, rfl, rfl, rfl, fun hp => executeFormDelete_paints s hp⟩

theorem c10_witness :
    ((handleKeyPress "\r" c10SysW).tui.currentView = View.confirmAction ∧
     (handleKeyPress "\r" c10SysW).tui.confirmIndex = 1 ∧
     (handleKeyPress "\r" c10SysW).tui.confirmAction = c10SysW.tui.confirmAction ∧
     (handleKeyPress "\r" c10SysW).tui.previousView = c10SysW.tui.previousView ∧
     (handleKeyPress "\r" c10SysW).tui.editingId = c10SysW.tui.editingId ∧
     ((c10SysW.tui.previousView = some View.customerForm ∨
       c10SysW.tui.previousView = some View.productForm) →
       ∃ m b, (handleKeyPress "\r" c10SysW).lastPaint = Paint.message m b)) ∧
    handleKeyPress "\t" c10DelW = handleConfirmation "\t" c10DelW ∧
    (handleKeyPress "\r" c10SysW = executeFormSave c10SysW ∧
     handleKeyPress "\r" (handleKeyPress "\r" c10SysW)
       = executeFormSave (executeFormSave c10SysW)) ∧
    (handleKeyPress "\r" c10DelW = executeFormDelete c10DelW ∧
     handleKeyPress "\r" (handleKeyPress "\r" c10DelW)
       = executeFormDelete (executeFormDelete c10DelW)) :=
  ⟨c10_confirm_window_reexecutes.1 c10SysW rfl rfl (Or.inl rfl),
   c10_confirm_window_reexecutes.2.1 "\t" c10DelW rfl (by decide) (by decide),
   c10_confirm_window_reexecutes.2.2.1 c10SysW rfl rfl rfl,
   c10_confirm_window_reexecutes.2.2.2 c10DelW rfl rfl rfl⟩

/-! ## C6: forward/backward traversal of an untouched form -/

theorem jsParseFloat_nil : jsParseFloat "" = none := by decide

/-- Writing back the value a slot already holds changes nothing. -/
theorem setField_self (fd : Row) (f : String) : setField fd f (fd f) = fd := by
  funext g
  unfold setField
  by_cases h : g = f
  · subst h; rw [if_pos rfl]
  · rw [if_neg h]

theorem goodSeed_field {steps : List FormStep} {fd : Row}
    (h : goodSeed steps fd = true) {st : FormStep} (hm : st ∈ steps) :
    goodVal st.isNumber (fd st.field) = true :=
  List.all_eq_true.mp h st hm

/-- The heart of the round trip: committing the reseeded buffer of a good
value reproduces the value. -/
theorem commitVal_stringifyOr (isNum : Bool) (v : FV)
    (hg : goodVal isNum v = true) : commitVal isNum (stringifyOr v) = v := by
  cases v with
  | undef => cases isNum <;> simp [goodVal] at hg
  | str s2 =>
    cases isNum with
    | true => simp [goodVal] at hg
    | false =>
      have hsor : stringifyOr (FV.str s2) = s2 := by
        by_cases hs : s2 = ""
        · subst hs; rfl
        · simp [stringifyOr, falsy, hs, fvToString]
      rw [hsor]
      unfold commitVal
      rw [if_neg (fun h => Bool.false_ne_true h.1)]
  | num j =>
    cases isNum with
    | false => simp [goodVal] at hg
    | true =>
      have hand : (!(j.mant == 0) && roundTripsB j) = true := hg
      rw [Bool.and_eq_true] at hand
      obtain ⟨hm0, hrtB⟩ := hand
      have hm : ¬ j.mant = 0 := by simpa using hm0
      have hrt : jsParseFloat (numToString j) = some j := by
        simpa [roundTripsB] using hrtB
      have hfal : falsy (FV.num j) = false := by simp [falsy, hm]
      have hsor : stringifyOr (FV.num j) = numToString j := by
        simp [stringifyOr, hfal, fvToString]
      have hne : numToString j ≠ "" := by
        intro h
        rw [h, jsParseFloat_nil] at hrt
        exact Option.noConfusion hrt
      rw [hsor]
      unfold commitVal
      rw [if_pos ⟨rfl, hne⟩, hrt]
      rfl

/-- A good commit-and-advance step: the data survives, the cursor moves to
`min (j+1) (last)`, and the buffer mirrors the new slot. -/
theorem moveToNextField_good (s : Sys)
    (hlt : s.tui.formStep < (stepsOfView s.tui.currentView).length)
    (hbuf : s.tui.inputBuffer =
      stringifyOr (s.tui.formData (fieldAt (stepsOfView s.tui.currentView) s.tui.formStep)))
    (hgood : goodSeed (stepsOfView s.tui.currentView) s.tui.formData = true) :
    (moveToNextField s).tui.currentView = s.tui.currentView ∧
    (moveToNextField s).tui.formStep =
      min (s.tui.formStep + 1) ((stepsOfView s.tui.currentView).length - 1) ∧
    (moveToNextField s).tui.formData = s.tui.formData ∧
    (moveToNextField s).tui.inputBuffer =
      stringifyOr (s.tui.formData (fieldAt (stepsOfView s.tui.currentView)
        (min (s.tui.formStep + 1) ((stepsOfView s.tui.currentView).length - 1)))) := by
  have hcur : (stepsOfView s.tui.currentView).get? s.tui.formStep
      = some ((stepsOfView s.tui.currentView).get ⟨s.tui.formStep, hlt⟩) :=
    List.get?_eq_get hlt
  set cur := (stepsOfView s.tui.currentView).get ⟨s.tui.formStep, hlt⟩ with hcurdef
  have hmem : cur ∈ stepsOfView s.tui.currentView := List.get_mem _ _ _
  have hfield : fieldAt (stepsOfView s.tui.currentView) s.tui.formStep = cur.field := by
    unfold fieldAt
    rw [hcur]
  have hcommit : commitVal cur.isNumber s.tui.inputBuffer = s.tui.formData cur.field := by
    rw [hbuf, hfield]
    exact commitVal_stringifyOr _ _ (goodSeed_field hgood hmem)
  have hfd : setField s.tui.formData cur.field (commitVal cur.isNumber s.tui.inputBuffer)
      = s.tui.formData := by
    rw [hcommit]
    exact setField_self _ _
  simp only [moveToNextField]
  rw [hcur]
  dsimp only
  by_cases hend : s.tui.formStep < (stepsOfView s.tui.currentView).length - 1
  · rw [if_pos hend]
    have hmin : min (s.tui.formStep + 1) ((stepsOfView s.tui.currentView).length - 1)
        = s.tui.formStep + 1 := by omega
    exact ⟨rfl, by rw [hmin], hfd, by rw [hfd, hmin]⟩
  · rw [if_neg hend]
    have hmin : min (s.tui.formStep + 1) ((stepsOfView s.tui.currentView).length - 1)
        = s.tui.formStep := by omega
    exact ⟨rfl, by rw [hmin], hfd, by rw [hmin, ← hbuf]⟩

/-- A good commit-and-retreat step. -/
theorem moveToPrevField_good (s : Sys)
    (hlt : s.tui.formStep < (stepsOfView s.tui.currentView).length)
    (hbuf : s.tui.inputBuffer =
      stringifyOr (s.tui.formData (fieldAt (stepsOfView s.tui.currentView) s.tui.formStep)))
    (hgood : goodSeed (stepsOfView s.tui.currentView) s.tui.formData = true) :
    (moveToPrevField s).tui.currentView = s.tui.currentView ∧
    (moveToPrevField s).tui.formStep = s.tui.formStep - 1 ∧
    (moveToPrevField s).tui.formData = s.tui.formData ∧
    (moveToPrevField s).tui.inputBuffer =
      stringifyOr (s.tui.formData (fieldAt (stepsOfView s.tui.currentView)
        (s.tui.formStep - 1))) := by
  have hcur : (stepsOfView s.tui.currentView).get? s.tui.formStep
      = some ((stepsOfView s.tui.currentView).get ⟨s.tui.formStep, hlt⟩) :=
    List.get?_eq_get hlt
  set cur := (stepsOfView s.tui.currentView).get ⟨s.tui.formStep, hlt⟩ with hcurdef
  have hmem : cur ∈ stepsOfView s.tui.currentView := List.get_mem _ _ _
  have hfield : fieldAt (stepsOfView s.tui.currentView) s.tui.formStep = cur.field := by
    unfold fieldAt
    rw [hcur]
  have hcommit : commitVal cur.isNumber s.tui.inputBuffer = s.tui.formData cur.field := by
    rw [hbuf, hfield]
    exact commitVal_stringifyOr _ _ (goodSeed_field hgood hmem)
  have hfd : setField s.tui.formData cur.field (commitVal cur.isNumber s.tui.inputBuffer)
      = s.tui.formData := by
    rw [hcommit]
    exact setField_self _ _
  simp only [moveToPrevField]
  rw [hcur]
  dsimp only
  by_cases hpos : 0 < s.tui.formStep
  · rw [if_pos hpos]
    exact ⟨rfl, rfl, hfd, by rw [hfd]⟩
  · rw [if_neg hpos]
    have h0 : s.tui.formStep = 0 := by omega
    exact ⟨rfl, by rw [h0], hfd, by rw [h0]; rw [h0] at hbuf; exact hbuf⟩

/-- In a form view, Down is `moveToNextField` plus a repaint. -/
theorem handleKeyPress_form_down (s : Sys) (hform : isFormView s.tui.currentView) :
    (handleKeyPress "\x1b[B" s).tui = (moveToNextField s).tui := by
  rw [handleKeyPress_nonGlobal "\x1b[B" s (by decide) (by decide) (by decide) (by decide) (by decide)]
  unfold viewDispatch
  rcases hform with h | h <;> rw [h] <;> dsimp only <;>
    (unfold handleFormView; rw [if_neg (by decide), if_pos rfl])

/-- In a form view, Up is `moveToPrevField` plus a repaint. -/
theorem handleKeyPress_form_up (s : Sys) (hform : isFormView s.tui.currentView) :
    (handleKeyPress "\x1b[A" s).tui = (moveToPrevField s).tui := by
  rw [handleKeyPress_nonGlobal "\x1b[A" s (by decide) (by decide) (by decide) (by decide) (by decide)]
  unfold viewDispatch
  rcases hform with h | h <;> rw [h] <;> dsimp only <;>
    (unfold handleFormView; rw [if_pos rfl])

/-- `i` Down key events from the first step of an untouched good form land
on step `i` with the data intact and the buffer mirroring step `i`. -/
theorem runKeys_downs_good (s : Sys)
    (hform : isFormView s.tui.currentView)
    (h0 : s.tui.formStep = 0)
    (hbuf : s.tui.inputBuffer =
      stringifyOr (s.tui.formData (fieldAt (stepsOfView s.tui.currentView) 0)))
    (hgood : goodSeed (stepsOfView s.tui.currentView) s.tui.formData = true)
    (i : ℕ) (hi : i ≤ (stepsOfView s.tui.currentView).length - 1) :
    (runKeys (List.replicate i "\x1b[B") s).tui.currentView = s.tui.currentView ∧
    (runKeys (List.replicate i "\x1b[B") s).tui.formStep = i ∧
    (runKeys (List.replicate i "\x1b[B") s).tui.formData = s.tui.formData ∧
    (runKeys (List.replicate i "\x1b[B") s).tui.inputBuffer =
      stringifyOr (s.tui.formData (fieldAt (stepsOfView s.tui.currentView) i)) := by
  induction i with
  | zero => exact ⟨rfl, h0, rfl, hbuf⟩
  | succ i ih =>
    have hrec := ih (by omega)
    have hsplit : runKeys (List.replicate (i + 1) "\x1b[B") s
        = handleKeyPress "\x1b[B" (runKeys (List.replicate i "\x1b[B") s) := by
      rw [List.replicate_succ']
      unfold runKeys
      rw [List.foldl_append]
      rfl
    set t := runKeys (List.replicate i "\x1b[B") s
    have hformt : isFormView t.tui.currentView := by rw [hrec.1]; exact hform
    have hlen : 0 < (stepsOfView s.tui.currentView).length := by
      rcases hform with h | h <;> rw [h] <;> decide
    have hnext := moveToNextField_good t
      (by rw [hrec.1, hrec.2.1]; omega)
      (by rw [hrec.1, hrec.2.1, hrec.2.2.1, hrec.2.2.2])
      (by rw [hrec.1, hrec.2.2.1]; exact hgood)
    have htui := handleKeyPress_form_down t hformt
    rw [hsplit, htui]
    have hmin : min (i + 1) ((stepsOfView s.tui.currentView).length - 1) = i + 1 := by omega
    refine ⟨hnext.1.trans hrec.1, ?_, hnext.2.2.1.trans hrec.2.2.1, ?_⟩
    · rw [hnext.2.1, hrec.2.1, hrec.1, hmin]
    · rw [hnext.2.2.2, hrec.1, hrec.2.1, hrec.2.2.1, hmin]

/-- `i` Up key events from the last step of an untouched good form land on
step `last - i` with the data intact. -/
theorem runKeys_ups_good (s : Sys)
    (hform : isFormView s.tui.currentView)
    (hstart : s.tui.formStep = (stepsOfView s.tui.currentView).length - 1)
    (hbuf : s.tui.inputBuffer =
      stringifyOr (s.tui.formData (fieldAt (stepsOfView s.tui.currentView)
        ((stepsOfView s.tui.currentView).length - 1))))
    (hgood : goodSeed (stepsOfView s.tui.currentView) s.tui.formData = true)
    (i : ℕ) :
    (runKeys (List.replicate i "\x1b[A") s).tui.currentView = s.tui.currentView ∧
    (runKeys (List.replicate i "\x1b[A") s).tui.formStep =
      (stepsOfView s.tui.currentView).length - 1 - i ∧
    (runKeys (List.replicate i "\x1b[A") s).tui.formData = s.tui.formData ∧
    (runKeys (List.replicate i "\x1b[A") s).tui.inputBuffer =
      stringifyOr (s.tui.formData (fieldAt (stepsOfView s.tui.currentView)
        ((stepsOfView s.tui.currentView).length - 1 - i))) := by
  induction i with
  | zero => exact ⟨rfl, hstart, rfl, hbuf⟩
  | succ i ih =>
    have hsplit : runKeys (List.replicate (i + 1) "\x1b[A") s
        = handleKeyPress "\x1b[A" (runKeys (List.replicate i "\x1b[A") s) := by
      rw [List.replicate_succ']
      unfold runKeys
      rw [List.foldl_append]
      rfl
    set t := runKeys (List.replicate i "\x1b[A") s
    have hformt : isFormView t.tui.currentView := by rw [ih.1]; exact hform
    have hlen : 0 < (stepsOfView s.tui.currentView).length := by
      rcases hform with h | h <;> rw [h] <;> decide
    have hprev := moveToPrevField_good t
      (by rw [ih.1, ih.2.1]; omega)
      (by rw [ih.1, ih.2.1, ih.2.2.1, ih.2.2.2])
      (by rw [ih.1, ih.2.2.1]; exact hgood)
    have htui := handleKeyPress_form_up t hformt
    rw [hsplit, htui]
    refine ⟨hprev.1.trans ih.1, ?_, hprev.2.2.1.trans ih.2.2.1, ?_⟩
    · rw [hprev.2.1, ih.2.1, Nat.sub_sub]
    · rw [hprev.2.2.2, ih.1, ih.2.1, ih.2.2.1, Nat.sub_sub]

/-- C6 (corrected).  Advancing Down through all steps of a form and then
retreating Up back to the first step, with no typing in between, leaves
`formData` equal to its seed values *provided the seed is good*: every text
step holds a string and every numeric step a nonzero number whose JS
stringification parses back to itself.  (A numeric field seeded `0` — or an
absent field — is instead rewritten to the empty string by the traversal,
as the counterexample shows.) -/
theorem c6_roundtrip_good_seed (s : Sys)
    (hform : isFormView s.tui.currentView)
    (h0 : s.tui.formStep = 0)
    (hbuf : s.tui.inputBuffer =
      stringifyOr (s.tui.formData (fieldAt (stepsOfView s.tui.currentView) 0)))
    (hgood : goodSeed (stepsOfView s.tui.currentView) s.tui.formData = true) :
    (runKeys (List.replicate ((stepsOfView s.tui.currentView).length - 1) "\x1b[B" ++
              List.replicate ((stepsOfView s.tui.currentView).length - 1) "\x1b[A") s).tui.formData
      = s.tui.formData ∧
    (runKeys (List.replicate ((stepsOfView s.tui.currentView).length - 1) "\x1b[B" ++
              List.replicate ((stepsOfView s.tui.currentView).length - 1) "\x1b[A") s).tui.formStep
      = 0 ∧
    (runKeys (List.replicate ((stepsOfView s.tui.currentView).length - 1) "\x1b[B" ++
              List.replicate ((stepsOfView s.tui.currentView).length - 1) "\x1b[A") s).tui.inputBuffer
      = s.tui.inputBuffer := by
  have hsplit : runKeys (List.replicate ((stepsOfView s.tui.currentView).length - 1) "\x1b[B" ++
        List.replicate ((stepsOfView s.tui.currentView).length - 1) "\x1b[A") s
      = runKeys (List.replicate ((stepsOfView s.tui.currentView).length - 1) "\x1b[A")
          (runKeys (List.replicate ((stepsOfView s.tui.currentView).length - 1) "\x1b[B") s) := by
    unfold runKeys
    rw [List.foldl_append]
  have hdown := runKeys_downs_good s hform h0 hbuf hgood
    ((stepsOfView s.tui.currentView).length - 1) (le_refl _)
  set t := runKeys (List.replicate ((stepsOfView s.tui.currentView).length - 1) "\x1b[B") s
  have hup := runKeys_ups_good t
    (by rw [hdown.1]; exact hform)
    (by rw [hdown.2.1, hdown.1])
    (by rw [hdown.2.2.2, hdown.1, hdown.2.2.1])
    (by rw [hdown.1, hdown.2.2.1]; exact hgood)
    ((stepsOfView s.tui.currentView).length - 1)
  rw [hsplit]
  refine ⟨hup.2.2.1.trans hdown.2.2.1, ?_, ?_⟩
  · rw [hup.2.1, hdown.1]
    omega
  · rw [hup.2.2.2, hdown.1, hdown.2.2.1, Nat.sub_self, ← hbuf]

theorem c6_counterexample :
    c6SysCE.tui.formData "CustomerDebt" = FV.num ⟨0, 0⟩ ∧
    (runKeys (List.replicate 6 "\x1b[B" ++ List.replicate 6 "\x1b[A")
      c6SysCE).tui.formData "CustomerDebt" = FV.str "" ∧
    FV.str "" ≠ FV.num ⟨0, 0⟩ := by
  decide

theorem c6_witness :
    (runKeys (List.replicate ((stepsOfView c6SysW.tui.currentView).length - 1) "\x1b[B" ++
              List.replicate ((stepsOfView c6SysW.tui.currentView).length - 1) "\x1b[A")
      c6SysW).tui.formData = c6SysW.tui.formData ∧
    (runKeys (List.replicate ((stepsOfView c6SysW.tui.currentView).length - 1) "\x1b[B" ++
              List.replicate ((stepsOfView c6SysW.tui.currentView).length - 1) "\x1b[A")
      c6SysW).tui.formStep = 0 ∧
    (runKeys (List.replicate ((stepsOfView c6SysW.tui.currentView).length - 1) "\x1b[B" ++
              List.replicate ((stepsOfView c6SysW.tui.currentView).length - 1) "\x1b[A")
      c6SysW).tui.inputBuffer = c6SysW.tui.inputBuffer :=
  c6_roundtrip_good_seed c6SysW (Or.inl rfl) rfl (by decide) (by decide)
